import Mathlib

/-!
Verification of the leadgen repository's lead-lifecycle orchestrator.

This file shallowly embeds the code of `src/db/index.js`, `src/outreach/index.js`,
`src/pitcher/index.js`, `src/queues/index.js` and the webhook routes
(`src/api/routes.js`) as pure Lean functions over an explicit system state.

Modelling conventions:
- The PostgreSQL tables (leads, messages, replies, activity) and the Bull
  delayed-job queues are fields of one `SysState` record; every operation is a
  function `SysState → SysState × result`.
- JavaScript exceptions are `Except String`: a handler that throws returns
  `(st, .error msg)` where `st` contains every database write performed before
  the throw (writes are not transactional in the source).
- External effects (SMTP, Twilio, OpenRouter, Math.random) are an `Oracle`
  record of outcome functions, so each run is deterministic given its oracle.
- JavaScript string truthiness (`if (x)`) is `x ≠ ""` on strings and
  `optTruthy` on nullable strings.
- The `sleep(attempt * 2000)` calls in `sendEmail` are instrumented as the
  `smtpWaits` trace field so that the backoff schedule is observable.
-/

/-- Lead lifecycle status, from the `leads.status` CHECK constraint in
`src/db/migrate.js`. -/
inductive LeadStatus where
  | new
  | pitched
  | followed_up_1
  | followed_up_2
  | followed_up_3
  | replied
  | archived
  | converted
deriving DecidableEq, Repr

/-- Delivery channel, from the `messages.channel` CHECK constraint. -/
inductive Channel where
  | email
  | whatsapp
  | sms
deriving DecidableEq, Repr

/-- Message delivery status, from the `messages.status` CHECK constraint. -/
inductive MsgStatus where
  | pending
  | sent
  | failed
  | cancelled
deriving DecidableEq, Repr

/-- Website-health tri-state, from the `leads.website_status` CHECK constraint. -/
inductive WebsiteStatus where
  | none_
  | dead
  | parked
deriving DecidableEq, Repr

/-- A row of the `leads` table (fields the orchestrator reads). -/
structure Lead where
  id : Nat
  business_name : String
  category : String
  location : String
  address : Option String
  phone : Option String
  email : Option String
  gmb_url : Option String
  rating : Option String
  review_count : Nat
  has_photos : Bool
  opening_hours : List String
  website_status : WebsiteStatus
  status : LeadStatus
deriving DecidableEq, Repr

/-- A row of the `messages` table. -/
structure Message where
  id : Nat
  lead_id : Nat
  message_type : String
  channel : Channel
  subject : Option String
  body : String
  status : MsgStatus
  retry_count : Nat
  error_text : Option String
deriving DecidableEq, Repr

/-- A row of the `replies` table. -/
structure Reply where
  id : Nat
  lead_id : Nat
  channel : Channel
  from_address : String
  body : String
deriving DecidableEq, Repr

/-- An entry of the `activity` audit table (action name and lead id). -/
structure ActEntry where
  action : String
  lead : Option Nat
deriving DecidableEq, Repr

/-- Kind of delayed job carried by a Bull queue payload: `followupNumber`
is `1`, `2`, `3` for the stage jobs and the string `'archive'` for the
grace-period job; pitch jobs carry only a lead id. -/
inductive JobKind where
  | followupStage (n : Nat)
  | archiveCheck
  | pitchJob
deriving DecidableEq, Repr

/-- A delayed Bull job: `key` is the deterministic `jobId` used for
deduplication and cancellation. -/
structure SchedTask where
  key : String
  leadId : Nat
  job : JobKind
  delay : Nat
deriving DecidableEq, Repr

/-- The whole observable system state: database tables, delayed-job queues,
notification count and audit trace. -/
structure SysState where
  leads : List Lead
  messages : List Message
  nextMsgId : Nat
  replies : List Reply
  nextReplyId : Nat
  tasks : List SchedTask
  pitchTasks : List SchedTask
  notified : Nat
  activity : List ActEntry
  smtpWaits : List Nat
deriving DecidableEq, Repr

/-- The settings snapshot read through `getSettings()` (parsed values of
`src/config/index.js`); `kv` models dynamic key lookup used for the
per-stage follow-up prompts. -/
structure Settings where
  auto_followup_enabled : Bool
  twilio_enabled : Bool
  followup_1_days : Nat
  followup_2_days : Nat
  followup_3_days : Nat
  hostinger_smtp_user : String
  hostinger_smtp_pass : String
  from_email : String
  twilio_sid : String
  twilio_token : String
  twilio_from_number : String
  twilio_whatsapp_from : String
  openrouter_key : String
  email_system_prompt : String
  email_user_instructions : String
  whatsapp_system_prompt : String
  whatsapp_user_instructions : String
  kv : String → Option String

/-- Outcomes of the external collaborators for one run: SMTP attempts,
the two Twilio calls, the OpenRouter completion, and the `Math.random`
subject choice. -/
structure Oracle where
  emailOk : Nat → Bool
  emailErr : Nat → String
  waOk : Bool
  waErr : String
  smsOk : Bool
  smsErr : String
  gen : String → String → Except String String
  subjectPick : Nat

/-- Result shape returned by the channel senders
(`{ success, error?, channel? }`). -/
structure SendRes where
  success : Bool
  error : Option String
  channel : Option Channel
  reason : Option String
deriving DecidableEq, Repr

/-- The two per-channel results assembled by `sendOutreach`. -/
structure OutreachResults where
  email : Option SendRes
  messaging : Option SendRes
deriving DecidableEq, Repr

/-- Result of the pitch queue processor. -/
inductive PitchOutcome where
  | skipped
  | done (results : OutreachResults)
deriving DecidableEq, Repr

/-- Result of the follow-up queue processor. -/
inductive FollowupOutcome where
  | skipped
  | cancelledTerminal (reason : LeadStatus)
  | done (n : Nat)
deriving DecidableEq, Repr

/-- JavaScript truthiness of a nullable string (`null`/`undefined` and `""`
are falsy). -/
def optTruthy : Option String → Bool
  | none => false
  | some s => s ≠ ""

/-- JavaScript `a || b` on a dynamic settings lookup: the looked-up string
wins when present and non-empty, otherwise the default applies. -/
def jsOrD (v : Option String) (d : String) : String :=
  match v with
  | some s => if s = "" then d else s
  | none => d

/-- JavaScript `Number(x) || d` for the configured follow-up day offsets
(`0`/missing falls back to the default). -/
def effDays (v d : Nat) : Nat := if v = 0 then d else v

/-- Characters matched by the regex class `\s` in the source's
`replace(/\s/g, '')` calls. -/
def isJsSpace (c : Char) : Bool :=
  c = ' ' || c = '\t' || c = '\n' || c = '\r'

namespace Leads

/-- Embeds `Leads.findById` (`SELECT * FROM leads WHERE id = $1`). -/
def findById (st : SysState) (id : Nat) : Option Lead :=
  st.leads.find? (fun l => l.id = id)

/-- Embeds `Leads.updateStatus` (`UPDATE leads SET status = $1 WHERE id = $2`). -/
def updateStatus (st : SysState) (id : Nat) (s : LeadStatus) : SysState :=
  { st with leads := st.leads.map (fun l => if l.id = id then { l with status := s } else l) }

end Leads

namespace Messages

/-- Embeds `Messages.create` (`INSERT INTO messages ... RETURNING *`;
`status` defaults to `'pending'`, `retry_count` to `0`). -/
def create (st : SysState) (lead_id : Nat) (message_type : String) (channel : Channel)
    (subject : Option String) (body : String) : Message × SysState :=
  let m : Message :=
    { id := st.nextMsgId, lead_id := lead_id, message_type := message_type,
      channel := channel, subject := subject, body := body,
      status := .pending, retry_count := 0, error_text := none }
  (m, { st with messages := st.messages ++ [m], nextMsgId := st.nextMsgId + 1 })

/-- Embeds `Messages.updateStatus`: the SQL sets `status = $1` and
`error_text = $2` (so `error_text` is overwritten, with `null` by default). -/
def updateStatus (st : SysState) (id : Nat) (s : MsgStatus) (err : Option String) : SysState :=
  { st with messages :=
      st.messages.map (fun m =>
        if m.id = id then { m with status := s, error_text := err } else m) }

/-- Embeds `Messages.incrementRetry`
(`UPDATE messages SET retry_count = retry_count + 1 WHERE id = $1`). -/
def incrementRetry (st : SysState) (id : Nat) : SysState :=
  { st with messages :=
      st.messages.map (fun m =>
        if m.id = id then { m with retry_count := m.retry_count + 1 } else m) }

/-- Embeds `Messages.cancelPendingForLead`
(`UPDATE messages SET status = 'cancelled' WHERE lead_id = $1 AND status = 'pending'`). -/
def cancelPendingForLead (st : SysState) (lead_id : Nat) : SysState :=
  { st with messages :=
      st.messages.map (fun m =>
        if m.lead_id = lead_id ∧ m.status = .pending
        then { m with status := .cancelled } else m) }

end Messages

namespace Replies

/-- Embeds `Replies.create` (`INSERT INTO replies ... RETURNING *`). -/
def create (st : SysState) (lead_id : Nat) (channel : Channel)
    (from_address : String) (body : String) : SysState :=
  { st with
    replies := st.replies ++
      [{ id := st.nextReplyId, lead_id := lead_id, channel := channel,
         from_address := from_address, body := body }],
    nextReplyId := st.nextReplyId + 1 }

end Replies

namespace Activity

/-- Embeds `Activity.log` (`INSERT INTO activity ...`), keeping the action
name and lead id. -/
def log (st : SysState) (action : String) (lead : Option Nat) : SysState :=
  { st with activity := st.activity ++ [{ action := action, lead := lead }] }

end Activity

/-- Embeds `normalizePhone` in `src/outreach/index.js`: strip whitespace,
dashes and parentheses, then ensure a leading `+`. -/
def normalizePhone (phone : String) : String :=
  if phone = "" then phone
  else
    let p := String.mk (phone.data.filter (fun c =>
      !(isJsSpace c || c = '-' || c = '(' || c = ')')))
    if p.data.head? = some '+' then p else "+" ++ p

/-- The `if (messageId) await Messages.updateStatus(...)` pattern of the
channel senders: update the row when a message id was passed. -/
def updMsgStatusOpt (st : SysState) (mid : Option Nat) (s : MsgStatus)
    (err : Option String) : SysState :=
  match mid with
  | some m => Messages.updateStatus st m s err
  | none => st

/-- The `if (messageId) await Messages.incrementRetry(...)` pattern. -/
def incRetryOpt (st : SysState) (mid : Option Nat) : SysState :=
  match mid with
  | some m => Messages.incrementRetry st m
  | none => st

/-- Embeds the retry loop of `sendEmail` (attempts `1..MAX_RETRIES`):
`remaining` counts attempts still allowed, `attempt` is the 1-based index.
On success the Message row is marked `sent`; on each failure the retry
counter is incremented and, if attempts remain, the loop sleeps
`attempt * 2000` ms (recorded in `smtpWaits`); after the last failure the
row is marked `failed` with the last error text and a failure result is
returned (not thrown). -/
def sendEmailGo (o : Oracle) (leadId : Nat) (messageId : Option Nat) :
    Nat → Nat → SysState → SysState × SendRes
  | 0, attempt, st =>
    let lastErr := o.emailErr (attempt - 1)
    let st := updMsgStatusOpt st messageId .failed (some lastErr)
    let st := Activity.log st "email_failed" (some leadId)
    (st, { success := false, error := some lastErr, channel := none, reason := none })
  | remaining + 1, attempt, st =>
    if o.emailOk attempt then
      let st := updMsgStatusOpt st messageId .sent none
      let st := Activity.log st "email_sent" (some leadId)
      (st, { success := true, error := none, channel := none, reason := none })
    else
      let st := incRetryOpt st messageId
      let st := if remaining > 0
        then { st with smtpWaits := st.smtpWaits ++ [attempt * 2000] }
        else st
      sendEmailGo o leadId messageId remaining (attempt + 1) st

/-- Embeds `sendEmail` in `src/outreach/index.js`: configuration checks
throw (`.error`), then up to `MAX_RETRIES = 3` attempts run. -/
def sendEmail (o : Oracle) (s : Settings) (toAddr : String) (leadId : Nat)
    (messageId : Option Nat) (st : SysState) : SysState × Except String SendRes :=
  if s.hostinger_smtp_user = "" then (st, .error "Hostinger SMTP user not configured")
  else if s.hostinger_smtp_pass = "" then (st, .error "Hostinger SMTP password not configured")
  else if s.from_email = "" then (st, .error "From email not configured")
  else if toAddr = "" then (st, .error "No recipient email")
  else
    let (st, r) := sendEmailGo o leadId messageId 3 1 st
    (st, .ok r)

/-- Embeds `sendWhatsApp`: configuration problems return a failure result
(never throw); otherwise the Twilio call outcome `o.waOk` decides whether
the Message row is marked `sent` or `failed`. -/
def sendWhatsApp (o : Oracle) (s : Settings) (toNum : String) (leadId : Nat)
    (messageId : Option Nat) (st : SysState) : SysState × SendRes :=
  if s.twilio_sid = "" ∨ s.twilio_token = "" then
    (st, { success := false, error := some "Twilio credentials not configured",
           channel := some .whatsapp, reason := none })
  else if s.twilio_whatsapp_from = "" then
    (st, { success := false, error := some "Twilio WhatsApp from number not configured",
           channel := some .whatsapp, reason := none })
  else if toNum = "" then
    (st, { success := false, error := some "No recipient phone number",
           channel := some .whatsapp, reason := none })
  else if o.waOk then
    let st := updMsgStatusOpt st messageId .sent none
    let st := Activity.log st "whatsapp_sent" (some leadId)
    (st, { success := true, error := none, channel := some .whatsapp, reason := none })
  else
    let st := updMsgStatusOpt st messageId .failed (some o.waErr)
    (st, { success := false, error := some o.waErr, channel := some .whatsapp, reason := none })

/-- Embeds `sendSMS`: configuration problems return a failure result; on a
successful Twilio call a NEW `sms`-channel pitch Message row is created and
marked `sent`; on a failed call no row is created and a failure result is
returned. Both outcomes append an activity entry. -/
def sendSMS (o : Oracle) (s : Settings) (toNum : String) (body : String) (leadId : Nat)
    (st : SysState) : SysState × SendRes :=
  if s.twilio_sid = "" ∨ s.twilio_token = "" then
    (st, { success := false, error := some "Twilio credentials not configured",
           channel := some .sms, reason := none })
  else if s.twilio_from_number = "" then
    (st, { success := false, error := some "Twilio SMS from number not configured",
           channel := some .sms, reason := none })
  else if toNum = "" then
    (st, { success := false, error := some "No recipient phone number",
           channel := some .sms, reason := none })
  else if o.smsOk then
    let (m, st) := Messages.create st leadId "pitch" .sms none body
    let st := Messages.updateStatus st m.id .sent none
    let st := Activity.log st "sms_sent" (some leadId)
    (st, { success := true, error := none, channel := some .sms, reason := none })
  else
    let st := Activity.log st "sms_failed" (some leadId)
    (st, { success := false, error := some o.smsErr, channel := some .sms, reason := none })

/-- The messaging half of `sendOutreach`: if `twilio_enabled` and the lead
has a phone and a messaging Message was generated, WhatsApp is tried first
and SMS is attempted if and only if WhatsApp reported failure, the
fallback's outcome becoming the messaging result. -/
def outreachMessagingStep (o : Oracle) (s : Settings) (lead : Lead)
    (waMsg : Option Message) (emailRes : Option SendRes) (st : SysState) :
    SysState × Except String OutreachResults :=
  match waMsg with
  | some wm =>
    if s.twilio_enabled ∧ optTruthy lead.phone then
      let (st2, waResult) :=
        sendWhatsApp o s (lead.phone.getD "") lead.id (some wm.id) st
      if waResult.success then
        (st2, .ok { email := emailRes, messaging := some waResult })
      else
        let (st3, smsResult) := sendSMS o s (lead.phone.getD "") wm.body lead.id st2
        (st3, .ok { email := emailRes, messaging := some smsResult })
    else
      (st, .ok { email := emailRes, messaging := none })
  | none => (st, .ok { email := emailRes, messaging := none })

/-- Embeds `sendOutreach`: email is attempted if the lead has an email and
an email Message was generated (a thrown email configuration error aborts
the whole dispatch), then the messaging step runs. -/
def sendOutreach (o : Oracle) (s : Settings) (lead : Lead)
    (emailMsg waMsg : Option Message) (st : SysState) :
    SysState × Except String OutreachResults :=
  let emailStep : SysState × Except String (Option SendRes) :=
    match emailMsg with
    | some em =>
      if optTruthy lead.email then
        match sendEmail o s (lead.email.getD "") lead.id (some em.id) st with
        | (st1, .error e) => (st1, .error e)
        | (st1, .ok r) => (st1, .ok (some r))
      else (st, .ok none)
    | none => (st, .ok none)
  match emailStep with
  | (st1, .error e) => (st1, .error e)
  | (st1, .ok emailRes) => outreachMessagingStep o s lead waMsg emailRes st1

/-- Embeds `sendFollowupEmail`: skip with `{success:false, reason:'no_email'}`
when the lead has no email, otherwise delegate to `sendEmail`. -/
def sendFollowupEmail (o : Oracle) (s : Settings) (lead : Lead) (msg : Message)
    (st : SysState) : SysState × Except String SendRes :=
  if ¬ optTruthy lead.email then
    (st, .ok { success := false, error := none, channel := none, reason := some "no_email" })
  else sendEmail o s (lead.email.getD "") lead.id (some msg.id) st

/-- Embeds `buildLeadContext` in `src/pitcher/index.js`: the business
details block interpolated into every generation prompt. -/
def buildLeadContext (lead : Lead) : String :=
  let hoursText := String.intercalate ", " lead.opening_hours
  let ratingText := match lead.rating with
    | some r => if r = "" then "No rating" else r ++ "/5"
    | none => "No rating"
  let websiteText := match lead.website_status with
    | .none_ => "No website at all"
    | .dead => "Website is broken/unreachable"
    | .parked => "Website is parked (placeholder)"
  "Business Name: " ++ lead.business_name ++
  "\nCategory: " ++ lead.category ++
  "\nLocation: " ++ lead.location ++
  "\nAddress: " ++ jsOrD lead.address "Not listed" ++
  "\nPhone: " ++ jsOrD lead.phone "Not listed" ++
  "\nGoogle Rating: " ++ ratingText ++
  "\nTotal Reviews: " ++ toString lead.review_count ++
  "\nHas Photos on GMB: " ++ (if lead.has_photos then "Yes" else "No") ++
  "\nOpening Hours: " ++ (if hoursText = "" then "Not listed" else hoursText) ++
  "\nWebsite Status: " ++ websiteText ++
  "\nGMB Profile URL: " ++ jsOrD lead.gmb_url "Not available"

/-- Embeds `buildFollowupContext`: the lead context plus the stage marker. -/
def buildFollowupContext (lead : Lead) (followupNumber : Nat) : String :=
  buildLeadContext lead ++ "\nFollow-up Number: " ++ toString followupNumber ++ " of 3"

/-- Embeds `callOpenRouter`: a missing API key throws, a transport error
throws, an empty completion throws, and otherwise the trimmed content is
returned. -/
def callOpenRouter (o : Oracle) (s : Settings) (systemPrompt userPrompt : String) :
    Except String String :=
  if s.openrouter_key = "" then .error "OpenRouter API key not configured"
  else
    match o.gen systemPrompt userPrompt with
    | .error e => .error e
    | .ok content =>
      if content = "" then .error "Empty response from OpenRouter"
      else .ok content.trim

/-- Embeds `generateEmailSubject`: one of three templates chosen by
`Math.random` (the oracle's `subjectPick`). -/
def generateEmailSubject (o : Oracle) (lead : Lead) : String :=
  let name := lead.business_name
  let statusText := match lead.website_status with
    | .none_ => "you don't have a website yet"
    | .dead => "your website seems to be down"
    | .parked => "your website needs attention"
  let subjects := [name ++ " — " ++ statusText,
    "Quick question about " ++ name ++ "'s online presence",
    "Helping " ++ name ++ " get more customers online"]
  (subjects.get? (o.subjectPick % 3)).getD ""

/-- The user prompt of the email pitch: configured instructions plus the
business-details block. -/
def emailUserPromptFor (s : Settings) (lead : Lead) : String :=
  s.email_user_instructions ++ "\n\n---\nBUSINESS DETAILS:\n" ++ buildLeadContext lead

/-- The user prompt of the WhatsApp/SMS pitch. -/
def waUserPromptFor (s : Settings) (lead : Lead) : String :=
  s.whatsapp_user_instructions ++ "\n\n---\nBUSINESS DETAILS:\n" ++ buildLeadContext lead

/-- Embeds `generatePitch`: generate the email pitch first (its failure
throws before anything is written), then the WhatsApp/SMS pitch (same),
then persist both Message rows (email row first), set the lead `pitched`,
and log the audit event. -/
def generatePitch (o : Oracle) (s : Settings) (lead : Lead) (st : SysState) :
    SysState × Except String (Message × Message) :=
  match callOpenRouter o s s.email_system_prompt (emailUserPromptFor s lead) with
  | .error e => (st, .error e)
  | .ok emailBody =>
    match callOpenRouter o s s.whatsapp_system_prompt (waUserPromptFor s lead) with
    | .error e => (st, .error e)
    | .ok smsBody =>
      let subject := generateEmailSubject o lead
      let (emailMsg, st1) := Messages.create st lead.id "pitch" .email (some subject) emailBody
      let (smsMsg, st2) := Messages.create st1 lead.id "pitch" .whatsapp none smsBody
      let st3 := Leads.updateStatus st2 lead.id .pitched
      let st4 := Activity.log st3 "pitch_generated" (some lead.id)
      (st4, .ok (emailMsg, smsMsg))

/-- The dynamic settings key `followup<n>_system_prompt`. -/
def followupSystemKey (n : Nat) : String :=
  "followup" ++ toString n ++ "_system_prompt"

/-- The dynamic settings key `followup<n>_user_instructions`. -/
def followupUserKey (n : Nat) : String :=
  "followup" ++ toString n ++ "_user_instructions"

/-- The system prompt `generateFollowup` selects:
`settings[systemKey] || settings.email_system_prompt`. -/
def followupSystemPromptSel (s : Settings) (n : Nat) : String :=
  jsOrD (s.kv (followupSystemKey n)) s.email_system_prompt

/-- The user instructions `generateFollowup` selects:
`settings[userKey] || settings.email_user_instructions`. -/
def followupUserInstrSel (s : Settings) (n : Nat) : String :=
  jsOrD (s.kv (followupUserKey n)) s.email_user_instructions

/-- The per-stage follow-up subject lines (`subjects[followupNumber]`,
`undefined` outside stages 1-3). -/
def followupSubject (lead : Lead) (n : Nat) : Option String :=
  if n = 1 then some ("Re: " ++ lead.business_name ++ " — just checking in")
  else if n = 2 then some (lead.business_name ++ " — what competitors are doing online")
  else if n = 3 then some (lead.business_name ++ " — my last message + a bonus offer")
  else none

/-- The tail of `generateFollowup` once the two prompts are fixed: call the
generator, persist the follow-up Message on the email channel, log the
audit event. -/
def generateFollowupUsing (o : Oracle) (s : Settings) (systemPrompt userInstructions : String)
    (lead : Lead) (n : Nat) (st : SysState) : SysState × Except String Message :=
  let followupContext := buildFollowupContext lead n
  match callOpenRouter o s systemPrompt
      (userInstructions ++ "\n\n---\nBUSINESS DETAILS:\n" ++ followupContext) with
  | .error e => (st, .error e)
  | .ok body =>
    let msgType := "followup_" ++ toString n
    let (msg, st1) := Messages.create st lead.id msgType .email (followupSubject lead n) body
    let st2 := Activity.log st1 (msgType ++ "_generated") (some lead.id)
    (st2, .ok msg)

/-- Embeds `generateFollowup`: the stage-specific prompts are looked up
dynamically and fall back to the email pitch prompts via `||`. -/
def generateFollowup (o : Oracle) (s : Settings) (lead : Lead) (n : Nat)
    (st : SysState) : SysState × Except String Message :=
  generateFollowupUsing o s (followupSystemPromptSel s n) (followupUserInstrSel s n) lead n st

/-- One day in milliseconds (`24 * 60 * 60 * 1000`). -/
def dayMs : Nat := 86400000

/-- Bull `queue.add` with a `jobId`: adding under an already-present key is
a no-op (Bull deduplicates by job id). -/
def addDelayedTask (t : SchedTask) (ts : List SchedTask) : List SchedTask :=
  if ts.any (fun x => x.key = t.key) then ts else ts ++ [t]

/-- The `jobId` of the stage-`n` follow-up job for a lead
(`followup-${leadId}-${n}`). -/
def followupKey (leadId n : Nat) : String :=
  "followup-" ++ toString leadId ++ "-" ++ toString n

/-- The `jobId` of the grace-period archive job for a lead
(`archive-${leadId}`). -/
def archiveKey (leadId : Nat) : String :=
  "archive-" ++ toString leadId

/-- Embeds the follow-up scheduling block of the pitch processor: three
delayed jobs at the configured day offsets (defaults 3/5/7). -/
def scheduleFollowups (s : Settings) (leadId : Nat) (st : SysState) : SysState :=
  let d1 := effDays s.followup_1_days 3
  let d2 := effDays s.followup_2_days 5
  let d3 := effDays s.followup_3_days 7
  let ts := addDelayedTask
    { key := followupKey leadId 1, leadId := leadId, job := .followupStage 1, delay := d1 * dayMs }
    st.tasks
  let ts := addDelayedTask
    { key := followupKey leadId 2, leadId := leadId, job := .followupStage 2, delay := d2 * dayMs }
    ts
  let ts := addDelayedTask
    { key := followupKey leadId 3, leadId := leadId, job := .followupStage 3, delay := d3 * dayMs }
    ts
  { st with tasks := ts }

/-- Embeds `enqueuePitch` (`pitchQueue.add({leadId}, {delay, jobId})`). -/
def enqueuePitch (leadId delay : Nat) (st : SysState) : SysState :=
  let t : SchedTask :=
    { key := "pitch-" ++ toString leadId, leadId := leadId, job := .pitchJob, delay := delay }
  { st with pitchTasks := addDelayedTask t st.pitchTasks }

/-- Embeds the `pitchQueue.process` handler: a missing lead throws; a lead
whose status is not `new` is skipped without any write; otherwise the pitch
is generated (which sets the lead `pitched`), dispatched, and — when
automated follow-up is enabled — the three follow-up jobs are scheduled. -/
def pitchProcess (o : Oracle) (s : Settings) (leadId : Nat) (st : SysState) :
    SysState × Except String PitchOutcome :=
  match Leads.findById st leadId with
  | none => (st, .error ("Lead " ++ toString leadId ++ " not found"))
  | some lead =>
    if lead.status ≠ LeadStatus.new then (st, .ok .skipped)
    else
      match generatePitch o s lead st with
      | (st1, .error e) => (st1, .error e)
      | (st1, .ok (emailMsg, smsMsg)) =>
        match sendOutreach o s lead (some emailMsg) (some smsMsg) st1 with
        | (st2, .error e) => (st2, .error e)
        | (st2, .ok results) =>
          let st3 := if s.auto_followup_enabled then scheduleFollowups s leadId st2 else st2
          (st3, .ok (.done results))

/-- The terminal statuses checked by the follow-up handler
(`['replied', 'archived', 'converted']`). -/
def terminalStatuses : List LeadStatus := [.replied, .archived, .converted]

/-- The lead status written after stage `n` (`followed_up_${n}`). -/
def followedUpStatus (n : Nat) : LeadStatus :=
  if n = 1 then .followed_up_1
  else if n = 2 then .followed_up_2
  else .followed_up_3

/-- Embeds the stage handler of `followupQueue.process`: disabled automation
skips; a missing lead throws; a terminal lead is a soft cancel with no
write; otherwise a follow-up is generated and emailed, the status advances
to `followed_up_<n>`, and after stage 3 the 48 h grace-period archive job
is scheduled. -/
def followupProcess (o : Oracle) (s : Settings) (leadId n : Nat) (st : SysState) :
    SysState × Except String FollowupOutcome :=
  if ¬ s.auto_followup_enabled then (st, .ok .skipped)
  else
    match Leads.findById st leadId with
    | none => (st, .error ("Lead " ++ toString leadId ++ " not found"))
    | some lead =>
      if terminalStatuses.contains lead.status then
        (st, .ok (.cancelledTerminal lead.status))
      else
        match generateFollowup o s lead n st with
        | (st1, .error e) => (st1, .error e)
        | (st1, .ok msg) =>
          match sendFollowupEmail o s lead msg st1 with
          | (st2, .error e) => (st2, .error e)
          | (st2, .ok _sendRes) =>
            let st3 := Leads.updateStatus st2 leadId (followedUpStatus n)
            let archiveTask : SchedTask :=
              { key := archiveKey leadId, leadId := leadId, job := .archiveCheck,
                delay := 48 * 60 * 60 * 1000 }
            let st4 := if n = 3
              then { st3 with tasks := addDelayedTask archiveTask st3.tasks }
              else st3
            (st4, .ok (.done n))

/-- Embeds the archive handler of `followupQueue.process`: a missing lead
returns; a lead whose status is not `replied`/`converted` is set `archived`
and the event is logged; otherwise nothing happens. No Message row is ever
created. -/
def archiveProcess (leadId : Nat) (st : SysState) : SysState :=
  match Leads.findById st leadId with
  | none => st
  | some lead =>
    if ¬ [LeadStatus.replied, LeadStatus.converted].contains lead.status then
      Activity.log (Leads.updateStatus st leadId .archived) "lead_archived" (some leadId)
    else st

/-- Embeds `cancelFollowupsForLead`: remove the three stage jobs by key
(note: NOT the `archive-${leadId}` job), then mark the lead's pending
Message rows cancelled. -/
def cancelFollowupsForLead (leadId : Nat) (st : SysState) : SysState :=
  let keys := [followupKey leadId 1, followupKey leadId 2, followupKey leadId 3]
  let st1 := { st with tasks := st.tasks.filter (fun t => ¬ keys.contains t.key) }
  Messages.cancelPendingForLead st1 leadId

/-- SQL-side phone normalization of the Twilio webhook lookup:
`REPLACE(REPLACE(phone, ' ', ''), '-', '')` — spaces and dashes only, the
leading `+` is kept. -/
def sqlStripSpaceDash (s : String) : String :=
  String.mk (s.data.filter (fun c => c ≠ ' ' ∧ c ≠ '-'))

/-- First JS-side step of the Twilio webhook: `From.replace(/\s/g, '')`. -/
def stripJsWs (s : String) : String :=
  String.mk (s.data.filter (fun c => ¬ isJsSpace c))

/-- Second JS-side step: `normalizedPhone.replace(/[+\s-]/g, '')` — this
also strips the leading `+`. -/
def stripPlusWsDash (s : String) : String :=
  String.mk (s.data.filter (fun c => ¬ (c = '+' ∨ isJsSpace c ∨ c = '-')))

/-- Embeds the `POST /webhooks/sendgrid` handler body (after the immediate
acknowledgment): match the lead by exact email, and if matched persist a
Reply, set the status to `replied` (unconditionally), cancel pending
follow-ups, log, and enqueue a notification; an unmatched reply is dropped
without any write. -/
def sendgridWebhook (fromAddr text : String) (st : SysState) : SysState :=
  match st.leads.find? (fun l => l.email = some fromAddr) with
  | none => st
  | some lead =>
    let st1 := Replies.create st lead.id .email fromAddr text
    let st2 := Leads.updateStatus st1 lead.id .replied
    let st3 := cancelFollowupsForLead lead.id st2
    let st4 := Activity.log st3 "reply_received" (some lead.id)
    { st4 with notified := st4.notified + 1 }

/-- Embeds the `POST /webhooks/twilio` handler body: the inbound `From` is
normalized by stripping whitespace, then `+`, whitespace and dashes; the
stored phone is normalized by the SQL `REPLACE` calls (which keep `+`);
if a lead matches, the same reply routine as the email webhook runs on the
`sms` channel. -/
def twilioWebhook (fromNum body : String) (st : SysState) : SysState :=
  let normalizedPhone := stripJsWs fromNum
  let target := stripPlusWsDash normalizedPhone
  match st.leads.find? (fun l =>
      match l.phone with
      | some p => sqlStripSpaceDash p = target
      | none => false) with
  | none => st
  | some lead =>
    let st1 := Replies.create st lead.id .sms fromNum body
    let st2 := Leads.updateStatus st1 lead.id .replied
    let st3 := cancelFollowupsForLead lead.id st2
    let st4 := Activity.log st3 "reply_received" (some lead.id)
    { st4 with notified := st4.notified + 1 }

/-- The status of a lead in a state (`none` when the lead does not exist). -/
def statusOf (st : SysState) (leadId : Nat) : Option LeadStatus :=
  (Leads.findById st leadId).map (fun l => l.status)

/-- Number of pitch Message rows of a lead on a given channel. -/
def countPitch (st : SysState) (leadId : Nat) (ch : Channel) : Nat :=
  (st.messages.filter (fun m =>
    m.lead_id = leadId ∧ m.channel = ch ∧ m.message_type = "pitch")).length

/-- Number of Message rows on a given channel (any lead, any type). -/
def countChannel (st : SysState) (ch : Channel) : Nat :=
  (st.messages.filter (fun m => m.channel = ch)).length

/-- Number of a lead's Message rows still in status `pending`. -/
def countPendingFor (st : SysState) (leadId : Nat) : Nat :=
  (st.messages.filter (fun m => m.lead_id = leadId ∧ m.status = .pending)).length

/-- Number of Reply rows of a lead. -/
def countRepliesFor (st : SysState) (leadId : Nat) : Nat :=
  (st.replies.filter (fun r => r.lead_id = leadId)).length

/-- Whether a delayed job with the given key is pending in the follow-up
queue. -/
def hasTask (st : SysState) (key : String) : Bool :=
  st.tasks.any (fun t => t.key = key)

/-- Number of SMS dispatch attempts recorded in the audit trail
(`sms_sent` or `sms_failed` activity entries). -/
def countSmsAttempts (st : SysState) : Nat :=
  (st.activity.filter (fun a => a.action = "sms_sent" ∨ a.action = "sms_failed")).length

/-- A sample lead row used by concrete witnesses. -/
def sampleLead (id : Nat) (em ph : Option String) (stt : LeadStatus) : Lead :=
  { id := id, business_name := "Chennai Salon", category := "salon",
    location := "Chennai, India", address := none, phone := ph, email := em,
    gmb_url := none, rating := none, review_count := 12, has_photos := true,
    opening_hours := [], website_status := .none_, status := stt }

/-- A sample system state used by concrete witnesses. -/
def sampleState (ls : List Lead) (ms : List Message) (ts : List SchedTask) : SysState :=
  { leads := ls, messages := ms, nextMsgId := 100, replies := [], nextReplyId := 0,
    tasks := ts, pitchTasks := [], notified := 0, activity := [], smtpWaits := [] }

/-- A sample pending Message row. -/
def samplePendingMsg (id lid : Nat) (ch : Channel) : Message :=
  { id := id, lead_id := lid, message_type := "pitch", channel := ch, subject := none,
    body := "hello", status := .pending, retry_count := 0, error_text := none }

/-- A sample delayed job. -/
def sampleTask (key : String) (lid : Nat) (j : JobKind) : SchedTask :=
  { key := key, leadId := lid, job := j, delay := 0 }

/-- A fully configured settings snapshot (all channels enabled, automated
follow-up on, no stage-specific prompt overrides). -/
def cfgSettings : Settings :=
  { auto_followup_enabled := true, twilio_enabled := true,
    followup_1_days := 3, followup_2_days := 5, followup_3_days := 7,
    hostinger_smtp_user := "user", hostinger_smtp_pass := "pass",
    from_email := "me@gadgeek.in", twilio_sid := "AC123", twilio_token := "tok",
    twilio_from_number := "+14155550000", twilio_whatsapp_from := "whatsapp:+14155550000",
    openrouter_key := "orkey",
    email_system_prompt := "EMAIL-SYS", email_user_instructions := "EMAIL-USER",
    whatsapp_system_prompt := "WA-SYS", whatsapp_user_instructions := "WA-USER",
    kv := fun _ => none }

/-- An oracle where every external call succeeds. -/
def okOracle : Oracle :=
  { emailOk := fun _ => true, emailErr := fun _ => "smtp down",
    waOk := true, waErr := "wa down", smsOk := true, smsErr := "sms down",
    gen := fun _ _ => .ok "generated copy", subjectPick := 0 }

/-- An oracle where every SMTP attempt fails and everything else succeeds. -/
def mailFailOracle : Oracle :=
  { okOracle with emailOk := fun _ => false }

/-- An oracle where WhatsApp fails and SMS succeeds. -/
def waFailOracle : Oracle :=
  { okOracle with waOk := false }

/-- An oracle where both WhatsApp and SMS fail. -/
def waSmsFailOracle : Oracle :=
  { okOracle with waOk := false, smsOk := false }

/-- Settings with stage-2 follow-up prompt overrides present. -/
def kvSettings : Settings :=
  { cfgSettings with kv := fun k =>
      if k = "followup2_system_prompt" then some "S2-OVERRIDE"
      else if k = "followup2_user_instructions" then some "U2-OVERRIDE"
      else none }

/-- Settings with the OpenRouter API key missing. -/
def noKeySettings : Settings :=
  { cfgSettings with openrouter_key := "" }

/-- Witness state: one fresh lead with both contact methods. -/
def c1State : SysState :=
  sampleState [sampleLead 1 (some "a@x.com") (some "+1 555 0100") .new] [] []

/-- The outreach results of a fully successful pitch dispatch. -/
def c1Res : OutreachResults :=
  { email := some { success := true, error := none, channel := none, reason := none },
    messaging := some { success := true, error := none, channel := some .whatsapp, reason := none } }

/-- Witness state: a replied lead with a pending message and live jobs. -/
def c2State : SysState :=
  sampleState [sampleLead 1 (some "a@x.com") none .replied]
    [samplePendingMsg 9 1 .email]
    [sampleTask (followupKey 1 2) 1 (.followupStage 2), sampleTask (archiveKey 1) 1 .archiveCheck]

/-- Counterexample state: a lead with all three stage jobs AND the archive
job pending, plus a pending Message row. -/
def c3State : SysState :=
  sampleState [sampleLead 1 (some "a@x.com") none .followed_up_3]
    [samplePendingMsg 9 1 .email]
    [sampleTask (followupKey 1 1) 1 (.followupStage 1),
     sampleTask (followupKey 1 2) 1 (.followupStage 2),
     sampleTask (followupKey 1 3) 1 (.followupStage 3),
     sampleTask (archiveKey 1) 1 .archiveCheck]

/-- A lead with a phone but no email, used by the messaging-fallback runs. -/
def c4Lead : Lead := sampleLead 2 none (some "+15550100") .new

/-- The pending WhatsApp pitch row of `c4Lead`. -/
def c4WaMsg : Message := samplePendingMsg 50 2 .whatsapp

/-- State holding `c4Lead` and its pending WhatsApp pitch row. -/
def c4State : SysState := sampleState [c4Lead] [c4WaMsg] []

/-- Counterexample state: a converted lead that then receives a reply. -/
def c6State : SysState :=
  sampleState [sampleLead 1 (some "a@x.com") none .converted] [] []

/-- Failing-input state for phone matching: the stored phone is the
spec's example `"+1 555 0100"`. -/
def c7State : SysState :=
  sampleState [sampleLead 1 none (some "+1 555 0100") .pitched] [] []

/-- Witness state for the email retry path: a fresh lead and its pending
email pitch row (id 7). -/
def c8State : SysState :=
  sampleState [sampleLead 1 (some "a@x.com") (some "+1 555 0100") .new]
    [samplePendingMsg 7 1 .email] []

/-- Witness state for the cancellation frame: rows of two leads in several
statuses. -/
def c10State : SysState :=
  sampleState [sampleLead 1 (some "a@x.com") none .pitched]
    [samplePendingMsg 30 1 .email,
     { samplePendingMsg 31 1 .whatsapp with status := .sent },
     samplePendingMsg 32 2 .email,
     { samplePendingMsg 33 1 .email with status := .failed, error_text := some "boom" }]
    []

/-- Frame of the channel senders: the parts of the state that dispatching
never touches — leads, queues, replies, notifications — plus the pitch
Message counts of every non-SMS channel (only the SMS fallback may create a
new row, and only on the `sms` channel). -/
def NonSmsFrame (st st2 : SysState) : Prop :=
  st2.leads = st.leads ∧ st2.tasks = st.tasks ∧ st2.pitchTasks = st.pitchTasks ∧
  st2.replies = st.replies ∧ st2.nextReplyId = st.nextReplyId ∧ st2.notified = st.notified ∧
  (∀ i ch, ch ≠ Channel.sms → countPitch st2 i ch = countPitch st i ch)

/-- A `find?` over a map by a predicate the mapping preserves. -/
theorem find?_map_pres {α : Type} (f : α → α) (p : α → Bool)
    (hp : ∀ a, p (f a) = p a) : ∀ l : List α, (l.map f).find? p = (l.find? p).map f := by
  intro l
  induction l with
  | nil => rfl
  | cons a t ih =>
    by_cases h : p a = true
    · rw [List.map_cons, List.find?_cons_of_pos _ (by rw [hp]; exact h),
        List.find?_cons_of_pos _ h, Option.map_some']
    · rw [List.map_cons, List.find?_cons_of_neg _ (by rw [hp]; exact h),
        List.find?_cons_of_neg _ h, ih]

/-- Filter length over a map by a predicate the mapping preserves. -/
theorem filter_map_pres_length {α : Type} (f : α → α) (p : α → Bool)
    (hp : ∀ a, p (f a) = p a) :
    ∀ l : List α, ((l.map f).filter p).length = (l.filter p).length := by
  intro l
  induction l with
  | nil => rfl
  | cons a t ih =>
    rw [List.map_cons, List.filter_cons, List.filter_cons, hp a]
    cases p a <;> simp [ih]

/-- Nothing satisfying `p` survives a filter by `q` that excludes it. -/
theorem any_filter_false {α : Type} (p q : α → Bool)
    (h : ∀ a, p a = true → q a = false) (l : List α) : (l.filter q).any p = false := by
  rw [List.any_eq_false]
  intro x hx hp
  have hq := (List.mem_filter.mp hx).2
  rw [h x hp] at hq
  exact Bool.noConfusion hq

/-- Activity entries other than the SMS ones do not change the SMS-attempt
count. -/
theorem countSmsAttempts_log_of_ne (st : SysState) (act : String) (lid : Option Nat)
    (h1 : act ≠ "sms_sent") (h2 : act ≠ "sms_failed") :
    countSmsAttempts (Activity.log st act lid) = countSmsAttempts st := by
  simp [countSmsAttempts, Activity.log, List.filter_append, h1, h2]

/-- A status update on a lead does not change which lead `findById` finds,
only its status field. -/
theorem findById_updateStatus (st : SysState) (tid id : Nat) (s : LeadStatus) :
    Leads.findById (Leads.updateStatus st tid s) id =
      (Leads.findById st id).map (fun l => if l.id = tid then { l with status := s } else l) := by
  unfold Leads.findById Leads.updateStatus
  exact find?_map_pres _ _ (fun l => by by_cases h : l.id = tid <;> simp [h]) st.leads

/-- `Messages.updateStatus` preserves every pitch count (it never changes
`lead_id`, `channel` or `message_type`). -/
theorem countPitch_msgUpdateStatus (st : SysState) (mid : Nat) (s : MsgStatus)
    (err : Option String) (i : Nat) (ch : Channel) :
    countPitch (Messages.updateStatus st mid s err) i ch = countPitch st i ch := by
  unfold countPitch Messages.updateStatus
  exact filter_map_pres_length _ _ (fun m => by by_cases h : m.id = mid <;> simp [h]) st.messages

/-- `Messages.incrementRetry` preserves every pitch count. -/
theorem countPitch_msgIncrementRetry (st : SysState) (mid : Nat) (i : Nat) (ch : Channel) :
    countPitch (Messages.incrementRetry st mid) i ch = countPitch st i ch := by
  unfold countPitch Messages.incrementRetry
  exact filter_map_pres_length _ _ (fun m => by by_cases h : m.id = mid <;> simp [h]) st.messages

/-- `Messages.updateStatus` preserves every per-channel count. -/
theorem countChannel_msgUpdateStatus (st : SysState) (mid : Nat) (s : MsgStatus)
    (err : Option String) (ch : Channel) :
    countChannel (Messages.updateStatus st mid s err) ch = countChannel st ch := by
  unfold countChannel Messages.updateStatus
  exact filter_map_pres_length _ _ (fun m => by by_cases h : m.id = mid <;> simp [h]) st.messages

/-- `Messages.incrementRetry` preserves every per-channel count. -/
theorem countChannel_msgIncrementRetry (st : SysState) (mid : Nat) (ch : Channel) :
    countChannel (Messages.incrementRetry st mid) ch = countChannel st ch := by
  unfold countChannel Messages.incrementRetry
  exact filter_map_pres_length _ _ (fun m => by by_cases h : m.id = mid <;> simp [h]) st.messages

theorem nonSmsFrame_refl (st : SysState) : NonSmsFrame st st :=
  ⟨rfl, rfl, rfl, rfl, rfl, rfl, fun _ _ _ => rfl⟩

theorem nonSmsFrame_trans {a b c : SysState} (h1 : NonSmsFrame a b) (h2 : NonSmsFrame b c) :
    NonSmsFrame a c :=
  ⟨h2.1.trans h1.1, h2.2.1.trans h1.2.1, h2.2.2.1.trans h1.2.2.1,
   h2.2.2.2.1.trans h1.2.2.2.1, h2.2.2.2.2.1.trans h1.2.2.2.2.1,
   h2.2.2.2.2.2.1.trans h1.2.2.2.2.2.1,
   fun i ch hch => (h2.2.2.2.2.2.2 i ch hch).trans (h1.2.2.2.2.2.2 i ch hch)⟩

theorem updMsgStatusOpt_frame (st : SysState) (mid : Option Nat) (s : MsgStatus)
    (err : Option String) : NonSmsFrame st (updMsgStatusOpt st mid s err) := by
  cases mid with
  | none => exact nonSmsFrame_refl st
  | some m =>
    exact ⟨rfl, rfl, rfl, rfl, rfl, rfl,
      fun i ch _ => countPitch_msgUpdateStatus st m s err i ch⟩

theorem incRetryOpt_frame (st : SysState) (mid : Option Nat) :
    NonSmsFrame st (incRetryOpt st mid) := by
  cases mid with
  | none => exact nonSmsFrame_refl st
  | some m =>
    exact ⟨rfl, rfl, rfl, rfl, rfl, rfl, fun i ch _ => countPitch_msgIncrementRetry st m i ch⟩

theorem log_frame (st : SysState) (act : String) (lid : Option Nat) :
    NonSmsFrame st (Activity.log st act lid) :=
  ⟨rfl, rfl, rfl, rfl, rfl, rfl, fun _ _ _ => rfl⟩

theorem waits_frame (st : SysState) (ws : List Nat) :
    NonSmsFrame st { st with smtpWaits := ws } :=
  ⟨rfl, rfl, rfl, rfl, rfl, rfl, fun _ _ _ => rfl⟩

theorem sendEmailGo_frame (o : Oracle) (lid : Nat) (mid : Option Nat) :
    ∀ (r a : Nat) (st : SysState), NonSmsFrame st (sendEmailGo o lid mid r a st).1 := by
  intro r
  induction r with
  | zero =>
    intro a st
    exact nonSmsFrame_trans (updMsgStatusOpt_frame st mid .failed (some (o.emailErr (a - 1))))
      (log_frame _ "email_failed" (some lid))
  | succ r ih =>
    intro a st
    by_cases hok : o.emailOk a = true
    · simp only [sendEmailGo, hok, if_true]
      exact nonSmsFrame_trans (updMsgStatusOpt_frame st mid .sent none)
        (log_frame _ "email_sent" (some lid))
    · simp only [sendEmailGo, hok, if_false, Bool.false_eq_true]
      by_cases hr : r > 0
      · simp only [hr, if_true]
        exact nonSmsFrame_trans (incRetryOpt_frame st mid)
          (nonSmsFrame_trans (waits_frame _ _) (ih (a + 1) _))
      · simp only [hr, if_false]
        exact nonSmsFrame_trans (incRetryOpt_frame st mid) (ih (a + 1) _)

theorem sendEmail_frame (o : Oracle) (s : Settings) (toAddr : String) (lid : Nat)
    (mid : Option Nat) (st : SysState) :
    NonSmsFrame st (sendEmail o s toAddr lid mid st).1 := by
  unfold sendEmail
  by_cases h1 : s.hostinger_smtp_user = ""
  · simp only [h1, if_true]; exact nonSmsFrame_refl st
  · simp only [h1, if_false]
    by_cases h2 : s.hostinger_smtp_pass = ""
    · simp only [h2, if_true]; exact nonSmsFrame_refl st
    · simp only [h2, if_false]
      by_cases h3 : s.from_email = ""
      · simp only [h3, if_true]; exact nonSmsFrame_refl st
      · simp only [h3, if_false]
        by_cases h4 : toAddr = ""
        · simp only [h4, if_true]; exact nonSmsFrame_refl st
        · simp only [h4, if_false]
          exact sendEmailGo_frame o lid mid 3 1 st

theorem sendWhatsApp_frame (o : Oracle) (s : Settings) (toNum : String) (lid : Nat)
    (mid : Option Nat) (st : SysState) :
    NonSmsFrame st (sendWhatsApp o s toNum lid mid st).1 := by
  unfold sendWhatsApp
  by_cases h1 : s.twilio_sid = "" ∨ s.twilio_token = ""
  · simp only [h1, if_true]; exact nonSmsFrame_refl st
  · simp only [h1, if_false]
    by_cases h2 : s.twilio_whatsapp_from = ""
    · simp only [h2, if_true]; exact nonSmsFrame_refl st
    · simp only [h2, if_false]
      by_cases h3 : toNum = ""
      · simp only [h3, if_true]; exact nonSmsFrame_refl st
      · simp only [h3, if_false]
        by_cases h4 : o.waOk = true
        · simp only [h4, if_true]
          exact nonSmsFrame_trans (updMsgStatusOpt_frame st mid .sent none)
            (log_frame _ "whatsapp_sent" (some lid))
        · simp only [h4, if_false, Bool.false_eq_true]
          exact updMsgStatusOpt_frame st mid .failed (some o.waErr)

theorem msgUpdateStatus_frame (st : SysState) (mid : Nat) (s : MsgStatus) (err : Option String) :
    NonSmsFrame st (Messages.updateStatus st mid s err) :=
  ⟨rfl, rfl, rfl, rfl, rfl, rfl, fun i ch _ => countPitch_msgUpdateStatus st mid s err i ch⟩

theorem createSms_frame (st : SysState) (lid : Nat) (body : String) :
    NonSmsFrame st (Messages.create st lid "pitch" .sms none body).2 := by
  refine ⟨rfl, rfl, rfl, rfl, rfl, rfl, fun i ch hch => ?_⟩
  unfold countPitch Messages.create
  simp only [List.filter_append, List.length_append]
  have : (List.filter (fun m =>
      decide (m.lead_id = i ∧ m.channel = ch ∧ m.message_type = "pitch"))
      [({ id := st.nextMsgId, lead_id := lid, message_type := "pitch", channel := .sms,
          subject := none, body := body, status := .pending, retry_count := 0,
          error_text := none } : Message)]).length = 0 := by
    simp [Ne.symm hch]
  omega

theorem sendSMS_frame (o : Oracle) (s : Settings) (toNum body : String) (lid : Nat)
    (st : SysState) : NonSmsFrame st (sendSMS o s toNum body lid st).1 := by
  unfold sendSMS
  by_cases h1 : s.twilio_sid = "" ∨ s.twilio_token = ""
  · simp only [h1, if_true]; exact nonSmsFrame_refl st
  · simp only [h1, if_false]
    by_cases h2 : s.twilio_from_number = ""
    · simp only [h2, if_true]; exact nonSmsFrame_refl st
    · simp only [h2, if_false]
      by_cases h3 : toNum = ""
      · simp only [h3, if_true]; exact nonSmsFrame_refl st
      · simp only [h3, if_false]
        by_cases h4 : o.smsOk = true
        · simp only [h4, if_true, Messages.create]
          exact nonSmsFrame_trans (createSms_frame st lid body)
            (nonSmsFrame_trans (msgUpdateStatus_frame _ _ .sent none)
              (log_frame _ "sms_sent" (some lid)))
        · simp only [h4, if_false, Bool.false_eq_true]
          exact log_frame st "sms_failed" (some lid)

theorem outreachMessagingStep_frame (o : Oracle) (s : Settings) (lead : Lead)
    (wm : Option Message) (emailRes : Option SendRes) (st : SysState) :
    NonSmsFrame st (outreachMessagingStep o s lead wm emailRes st).1 := by
  unfold outreachMessagingStep
  cases wm with
  | none => exact nonSmsFrame_refl st
  | some w =>
    by_cases hc : s.twilio_enabled = true ∧ optTruthy lead.phone = true
    · simp only [hc, if_true]
      rcases hwa : sendWhatsApp o s (lead.phone.getD "") lead.id (some w.id) st with ⟨st2, waR⟩
      have fw := sendWhatsApp_frame o s (lead.phone.getD "") lead.id (some w.id) st
      rw [hwa] at fw
      by_cases hs : waR.success = true
      · simp only [hs, if_true]
        exact fw
      · simp only [hs, if_false, Bool.false_eq_true]
        rcases hsms : sendSMS o s (lead.phone.getD "") w.body lead.id st2 with ⟨st3, smsR⟩
        have fs := sendSMS_frame o s (lead.phone.getD "") w.body lead.id st2
        rw [hsms] at fs
        exact nonSmsFrame_trans fw fs
    · simp only [hc, if_false]
      exact nonSmsFrame_refl st

theorem sendOutreach_frame (o : Oracle) (s : Settings) (lead : Lead)
    (em wm : Option Message) (st : SysState) :
    NonSmsFrame st (sendOutreach o s lead em wm st).1 := by
  unfold sendOutreach
  cases em with
  | none => exact outreachMessagingStep_frame o s lead wm none st
  | some emsg =>
    by_cases he : optTruthy lead.email = true
    · simp only [he, if_true]
      rcases hse : sendEmail o s (lead.email.getD "") lead.id (some emsg.id) st with ⟨st1, r⟩
      have f1 := sendEmail_frame o s (lead.email.getD "") lead.id (some emsg.id) st
      rw [hse] at f1
      cases r with
      | error e => exact f1
      | ok rr => exact nonSmsFrame_trans f1 (outreachMessagingStep_frame o s lead wm (some rr) st1)
    · simp only [he, if_false]
      exact outreachMessagingStep_frame o s lead wm none st

theorem generatePitch_ok_shape (o : Oracle) (s : Settings) (lead : Lead) (st st1 : SysState)
    (em wm : Message) (h : generatePitch o s lead st = (st1, .ok (em, wm))) :
    st1.messages = st.messages ++ [em, wm] ∧
    em.lead_id = lead.id ∧ em.channel = .email ∧ em.message_type = "pitch" ∧
    wm.lead_id = lead.id ∧ wm.channel = .whatsapp ∧ wm.message_type = "pitch" ∧
    st1.leads = st.leads.map (fun l => if l.id = lead.id then { l with status := .pitched } else l) ∧
    st1.tasks = st.tasks ∧ st1.pitchTasks = st.pitchTasks ∧ st1.replies = st.replies ∧
    st1.nextReplyId = st.nextReplyId ∧ st1.notified = st.notified := by
  unfold generatePitch at h
  rcases h1 : callOpenRouter o s s.email_system_prompt (emailUserPromptFor s lead) with e1 | b1 <;>
    rw [h1] at h
  · exact absurd (congrArg Prod.snd h) (by simp)
  · rcases h2 : callOpenRouter o s s.whatsapp_system_prompt (waUserPromptFor s lead) with e2 | b2 <;>
      rw [h2] at h
    · exact absurd (congrArg Prod.snd h) (by simp)
    · simp only [Messages.create, Leads.updateStatus, Activity.log, Prod.mk.injEq,
        Except.ok.injEq] at h
      obtain ⟨hst, hem, hwm⟩ := h
      subst hst
      subst hem
      subst hwm
      refine ⟨by simp, rfl, rfl, rfl, rfl, rfl, rfl, rfl, rfl, rfl, rfl, rfl, rfl⟩

theorem generatePitch_error_state (o : Oracle) (s : Settings) (lead : Lead) (st st1 : SysState)
    (e : String) (h : generatePitch o s lead st = (st1, .error e)) : st1 = st := by
  unfold generatePitch at h
  rcases h1 : callOpenRouter o s s.email_system_prompt (emailUserPromptFor s lead) with e1 | b1 <;>
    rw [h1] at h
  · exact (congrArg Prod.fst h).symm
  · rcases h2 : callOpenRouter o s s.whatsapp_system_prompt (waUserPromptFor s lead) with e2 | b2 <;>
      rw [h2] at h
    · exact (congrArg Prod.fst h).symm
    · exact absurd (congrArg Prod.snd h) (by simp)

theorem findById_id (st : SysState) (id : Nat) (lead : Lead)
    (h : Leads.findById st id = some lead) : lead.id = id := by
  have := List.find?_some h
  exact of_decide_eq_true this

theorem countPitch_two_rows (st st1 : SysState) (leadId : Nat) (em wm : Message)
    (hmsgs : st1.messages = st.messages ++ [em, wm])
    (he1 : em.lead_id = leadId) (he2 : em.channel = .email) (he3 : em.message_type = "pitch")
    (hw1 : wm.lead_id = leadId) (hw2 : wm.channel = .whatsapp) (hw3 : wm.message_type = "pitch") :
    countPitch st1 leadId .email = countPitch st leadId .email + 1 ∧
    countPitch st1 leadId .whatsapp = countPitch st leadId .whatsapp + 1 := by
  unfold countPitch
  rw [hmsgs, List.filter_append, List.filter_append, List.length_append, List.length_append]
  constructor <;> simp [List.filter_cons, he1, he2, he3, hw1, hw2, hw3]

/-- C1. PitchLead is idempotent: with a status other than `new` the pitch
handler is a pure skip (no write at all); from status `new`, a completed
run adds exactly one email pitch Message and one whatsapp pitch Message,
moves the lead to `pitched`, and an immediately following second run is a
no-op returning `skipped`. -/
theorem c1_pitchLead_idempotent (o : Oracle) (s : Settings) (st : SysState) (leadId : Nat)
    (lead : Lead) (hfind : Leads.findById st leadId = some lead) :
    (lead.status ≠ .new → pitchProcess o s leadId st = (st, .ok .skipped)) ∧
    (∀ st2 res, lead.status = .new →
      pitchProcess o s leadId st = (st2, .ok (.done res)) →
      countPitch st2 leadId .email = countPitch st leadId .email + 1 ∧
      countPitch st2 leadId .whatsapp = countPitch st leadId .whatsapp + 1 ∧
      statusOf st2 leadId = some .pitched ∧
      pitchProcess o s leadId st2 = (st2, .ok .skipped)) := by
  have hid : lead.id = leadId := findById_id st leadId lead hfind
  constructor
  · intro hne
    unfold pitchProcess
    rw [hfind]
    simp [hne]
  · intro st2 res hnew hrun
    unfold pitchProcess at hrun
    rw [hfind] at hrun
    simp only [hnew, ne_eq, not_true_eq_false, if_false] at hrun
    rcases hg : generatePitch o s lead st with ⟨stg, rg⟩
    rw [hg] at hrun
    cases rg with
    | error e => simp at hrun
    | ok p =>
      obtain ⟨em, wm⟩ := p
      dsimp only at hrun
      rcases ho : sendOutreach o s lead (some em) (some wm) stg with ⟨sto, ro⟩
      rw [ho] at hrun
      cases ro with
      | error e => simp at hrun
      | ok results =>
        simp only [Prod.mk.injEq, Except.ok.injEq, PitchOutcome.done.injEq] at hrun
        obtain ⟨hst2, _hres⟩ := hrun
        obtain ⟨hmsgs, he1, he2, he3, hw1, hw2, hw3, hleads, _htasks, _hpt, _hrep,
          _hnrid, _hnot⟩ := generatePitch_ok_shape o s lead st stg em wm hg
        have frame := sendOutreach_frame o s lead (some em) (some wm) stg
        rw [ho] at frame
        -- the scheduled-follow-up step touches only `tasks`
        have hmsg2 : st2.messages = sto.messages := by
          rw [← hst2]
          by_cases ha : s.auto_followup_enabled = true <;> simp [ha, scheduleFollowups]
        have hleads2 : st2.leads = sto.leads := by
          rw [← hst2]
          by_cases ha : s.auto_followup_enabled = true <;> simp [ha, scheduleFollowups]
        have hcp : ∀ ch, ch ≠ Channel.sms →
            countPitch st2 leadId ch = countPitch stg leadId ch := by
          intro ch hch
          have h1 : countPitch st2 leadId ch = countPitch sto leadId ch := by
            unfold countPitch
            rw [hmsg2]
          exact h1.trans (frame.2.2.2.2.2.2 leadId ch hch)
        have hrows := countPitch_two_rows st stg leadId em wm hmsgs
          (he1.trans hid) he2 he3 (hw1.trans hid) hw2 hw3
        have hstatus : statusOf st2 leadId = some .pitched := by
          unfold statusOf Leads.findById
          rw [hleads2, frame.1, hleads]
          rw [find?_map_pres _ _ (fun l => by by_cases h : l.id = lead.id <;> simp [h]) st.leads]
          have : st.leads.find? (fun l => l.id = leadId) = some lead := hfind
          rw [this]
          simp [hid]
        refine ⟨(hcp .email (by simp)).trans hrows.1,
                (hcp .whatsapp (by simp)).trans hrows.2, hstatus, ?_⟩
        -- second run: the lead is now `pitched`, so the handler skips
        unfold statusOf at hstatus
        rcases hf2 : Leads.findById st2 leadId with _ | lead2
        · rw [hf2] at hstatus; simp at hstatus
        · rw [hf2] at hstatus
          simp only [Option.map_some', Option.some.injEq] at hstatus
          unfold pitchProcess
          rw [hf2]
          simp [hstatus]

/-- Witness for C1 at a concrete fresh lead: the first run adds the two
pitch rows and the second run is a skip. -/
theorem c1_witness :
    countPitch (pitchProcess okOracle cfgSettings 1 c1State).1 1 .email =
      countPitch c1State 1 .email + 1 ∧
    countPitch (pitchProcess okOracle cfgSettings 1 c1State).1 1 .whatsapp =
      countPitch c1State 1 .whatsapp + 1 ∧
    statusOf (pitchProcess okOracle cfgSettings 1 c1State).1 1 = some .pitched ∧
    pitchProcess okOracle cfgSettings 1 (pitchProcess okOracle cfgSettings 1 c1State).1 =
      ((pitchProcess okOracle cfgSettings 1 c1State).1, .ok .skipped) :=
  (c1_pitchLead_idempotent okOracle cfgSettings c1State 1
      (sampleLead 1 (some "a@x.com") (some "+1 555 0100") .new) rfl).2
    (pitchProcess okOracle cfgSettings 1 c1State).1 c1Res rfl rfl

/-- C2. Terminal absorption: for a lead in `{replied, archived, converted}`,
any stage follow-up execution returns successfully with the state literally
unchanged (so no status change and no new Message), and the archive-check
execution never touches the messages table and never changes the status
value. -/
theorem c2_terminal_absorbing (o : Oracle) (s : Settings) (st : SysState) (leadId : Nat)
    (lead : Lead) (hfind : Leads.findById st leadId = some lead)
    (hterm : lead.status ∈ terminalStatuses) :
    (∀ n, ∃ out, followupProcess o s leadId n st = (st, .ok out)) ∧
    (archiveProcess leadId st).messages = st.messages ∧
    statusOf (archiveProcess leadId st) leadId = statusOf st leadId := by
  have hid : lead.id = leadId := findById_id st leadId lead hfind
  simp only [terminalStatuses, List.mem_cons, List.not_mem_nil, or_false] at hterm
  constructor
  · intro n
    by_cases ha : s.auto_followup_enabled = true
    · refine ⟨.cancelledTerminal lead.status, ?_⟩
      unfold followupProcess
      simp only [ha, not_true_eq_false, if_false, hfind]
      rcases hterm with h | h | h <;> simp [h, terminalStatuses]
    · refine ⟨.skipped, ?_⟩
      unfold followupProcess
      simp [ha]
  · unfold archiveProcess
    simp only [hfind]
    rcases hterm with h | h | h
    · simp [h]
    · have hc : ([LeadStatus.replied, LeadStatus.converted].contains lead.status) = false := by
        rw [h]; decide
      simp only [hc, Bool.false_eq_true, not_false_eq_true, if_true]
      refine ⟨rfl, ?_⟩
      unfold statusOf Leads.findById Activity.log Leads.updateStatus
      simp only
      rw [find?_map_pres _ _ (fun l => by by_cases hl : l.id = leadId <;> simp [hl]) st.leads]
      have : st.leads.find? (fun l => l.id = leadId) = some lead := hfind
      rw [this]
      simp [hid, h]
    · simp [h]

/-- Witness for C2 at a concrete replied lead: stage-2 execution leaves the
state untouched and the archive-check changes neither messages nor status. -/
theorem c2_witness :
    (∃ out, followupProcess okOracle cfgSettings 1 2 c2State = (c2State, .ok out)) ∧
    (archiveProcess 1 c2State).messages = c2State.messages ∧
    statusOf (archiveProcess 1 c2State) 1 = statusOf c2State 1 :=
  ⟨(c2_terminal_absorbing okOracle cfgSettings c2State 1
      (sampleLead 1 (some "a@x.com") none .replied) rfl (by decide)).1 2,
   (c2_terminal_absorbing okOracle cfgSettings c2State 1
      (sampleLead 1 (some "a@x.com") none .replied) rfl (by decide)).2⟩

theorem filter_pending_cancel_nil (leadId : Nat) : ∀ l : List Message,
    (l.map (fun m => if m.lead_id = leadId ∧ m.status = .pending
        then { m with status := .cancelled } else m)).filter
      (fun m => decide (m.lead_id = leadId ∧ m.status = .pending)) = [] := by
  intro l
  induction l with
  | nil => rfl
  | cons a t ih =>
    simp only [List.map_cons]
    by_cases h : a.lead_id = leadId ∧ a.status = .pending
    · rw [if_pos h, List.filter_cons_of_neg (by simp)]
      exact ih
    · rw [if_neg h, List.filter_cons_of_neg (by simp [h])]
      exact ih

theorem archiveProcess_messages (leadId : Nat) (st : SysState) :
    (archiveProcess leadId st).messages = st.messages := by
  unfold archiveProcess
  rcases h : Leads.findById st leadId with _ | lead
  · rfl
  · dsimp only
    by_cases hc : ¬ ([LeadStatus.replied, LeadStatus.converted].contains lead.status = true)
    · rw [if_pos hc]; rfl
    · rw [if_neg hc]

/-- C3 counterexample: the grace-period archive job of the lead is pending
before `cancelFollowupsForLead` runs and is STILL pending afterwards — the
function removes only the three stage keys, so the claim that it also
cancels the archive-check task is false. -/
theorem c3_counterexample :
    hasTask c3State (archiveKey 1) = true ∧
    hasTask (cancelFollowupsForLead 1 c3State) (archiveKey 1) = true :=
  ⟨rfl, rfl⟩

theorem hasTask_cancelFollowups (leadId : Nat) (st : SysState) (n : Nat)
    (hn : n = 1 ∨ n = 2 ∨ n = 3) :
    hasTask (cancelFollowupsForLead leadId st) (followupKey leadId n) = false := by
  unfold hasTask cancelFollowupsForLead Messages.cancelPendingForLead
  simp only
  apply any_filter_false
  intro a hp
  have ha : a.key = followupKey leadId n := of_decide_eq_true hp
  have hmem : a.key ∈ [followupKey leadId 1, followupKey leadId 2, followupKey leadId 3] := by
    rw [ha]
    rcases hn with h | h | h <;> subst h <;> simp
  simp [hmem]

theorem countPendingFor_cancelFollowups (leadId : Nat) (st : SysState) :
    countPendingFor (cancelFollowupsForLead leadId st) leadId = 0 := by
  unfold countPendingFor cancelFollowupsForLead Messages.cancelPendingForLead
  simp only
  rw [filter_pending_cancel_nil]
  rfl

/-- C3 amended. `cancelFollowupsForLead` cancels the three stage follow-up
jobs and marks every pending Message row of the lead cancelled, and is
idempotent; the archive-check job is NOT removed, but even when it later
fires it never creates a Message row. -/
theorem c3_cancel_amended (leadId : Nat) (st : SysState) :
    hasTask (cancelFollowupsForLead leadId st) (followupKey leadId 1) = false ∧
    hasTask (cancelFollowupsForLead leadId st) (followupKey leadId 2) = false ∧
    hasTask (cancelFollowupsForLead leadId st) (followupKey leadId 3) = false ∧
    countPendingFor (cancelFollowupsForLead leadId st) leadId = 0 ∧
    cancelFollowupsForLead leadId (cancelFollowupsForLead leadId st) =
      cancelFollowupsForLead leadId st ∧
    (archiveProcess leadId (cancelFollowupsForLead leadId st)).messages =
      (cancelFollowupsForLead leadId st).messages := by
  refine ⟨hasTask_cancelFollowups leadId st 1 (by simp),
    hasTask_cancelFollowups leadId st 2 (by simp),
    hasTask_cancelFollowups leadId st 3 (by simp),
    countPendingFor_cancelFollowups leadId st, ?_, ?_⟩
  · unfold cancelFollowupsForLead Messages.cancelPendingForLead
    simp only [SysState.mk.injEq, true_and, and_true]
    constructor
    · rw [List.map_map]
      have hg : ((fun m : Message => if m.lead_id = leadId ∧ m.status = MsgStatus.pending
            then { m with status := MsgStatus.cancelled } else m) ∘
          (fun m : Message => if m.lead_id = leadId ∧ m.status = MsgStatus.pending
            then { m with status := MsgStatus.cancelled } else m)) =
          (fun m : Message => if m.lead_id = leadId ∧ m.status = MsgStatus.pending
            then { m with status := MsgStatus.cancelled } else m) := by
        funext m
        by_cases h : m.lead_id = leadId ∧ m.status = MsgStatus.pending <;>
          simp [Function.comp, h]
      rw [hg]
    · exact List.filter_eq_self.mpr (fun a ha => (List.mem_filter.mp ha).2)
  · exact archiveProcess_messages leadId (cancelFollowupsForLead leadId st)

theorem countChannel_updOpt (st : SysState) (mid : Option Nat) (s : MsgStatus)
    (err : Option String) (ch : Channel) :
    countChannel (updMsgStatusOpt st mid s err) ch = countChannel st ch := by
  cases mid with
  | none => rfl
  | some m => exact countChannel_msgUpdateStatus st m s err ch

theorem countChannel_incOpt (st : SysState) (mid : Option Nat) (ch : Channel) :
    countChannel (incRetryOpt st mid) ch = countChannel st ch := by
  cases mid with
  | none => rfl
  | some m => exact countChannel_msgIncrementRetry st m ch

theorem countSmsAttempts_updOpt (st : SysState) (mid : Option Nat) (s : MsgStatus)
    (err : Option String) :
    countSmsAttempts (updMsgStatusOpt st mid s err) = countSmsAttempts st := by
  cases mid <;> rfl

theorem countSmsAttempts_incOpt (st : SysState) (mid : Option Nat) :
    countSmsAttempts (incRetryOpt st mid) = countSmsAttempts st := by
  cases mid <;> rfl

theorem sendEmailGo_sms_pres (o : Oracle) (lid : Nat) (mid : Option Nat) :
    ∀ (r a : Nat) (st : SysState),
      (∀ ch, countChannel (sendEmailGo o lid mid r a st).1 ch = countChannel st ch) ∧
      countSmsAttempts (sendEmailGo o lid mid r a st).1 = countSmsAttempts st := by
  intro r
  induction r with
  | zero =>
    intro a st
    constructor
    · intro ch
      exact countChannel_updOpt st mid .failed (some (o.emailErr (a - 1))) ch
    · exact (countSmsAttempts_log_of_ne _ _ _ (by decide) (by decide)).trans
        (countSmsAttempts_updOpt st mid .failed (some (o.emailErr (a - 1))))
  | succ r ih =>
    intro a st
    by_cases hok : o.emailOk a = true
    · simp only [sendEmailGo, hok, if_true]
      constructor
      · intro ch
        exact countChannel_updOpt st mid .sent none ch
      · exact (countSmsAttempts_log_of_ne _ _ _ (by decide) (by decide)).trans
          (countSmsAttempts_updOpt st mid .sent none)
    · simp only [sendEmailGo, hok, if_false, Bool.false_eq_true]
      by_cases hr : r > 0
      · simp only [hr, if_true]
        constructor
        · intro ch
          exact ((ih (a + 1) _).1 ch).trans (countChannel_incOpt st mid ch)
        · exact ((ih (a + 1) _).2).trans (countSmsAttempts_incOpt st mid)
      · simp only [hr, if_false]
        constructor
        · intro ch
          exact ((ih (a + 1) _).1 ch).trans (countChannel_incOpt st mid ch)
        · exact ((ih (a + 1) _).2).trans (countSmsAttempts_incOpt st mid)

theorem sendEmail_sms_pres (o : Oracle) (s : Settings) (toAddr : String) (lid : Nat)
    (mid : Option Nat) (st : SysState) :
    (∀ ch, countChannel (sendEmail o s toAddr lid mid st).1 ch = countChannel st ch) ∧
    countSmsAttempts (sendEmail o s toAddr lid mid st).1 = countSmsAttempts st := by
  unfold sendEmail
  by_cases h1 : s.hostinger_smtp_user = ""
  · simp [h1]
  · simp only [h1, if_false]
    by_cases h2 : s.hostinger_smtp_pass = ""
    · simp [h2]
    · simp only [h2, if_false]
      by_cases h3 : s.from_email = ""
      · simp [h3]
      · simp only [h3, if_false]
        by_cases h4 : toAddr = ""
        · simp [h4]
        · simp only [h4, if_false]
          exact sendEmailGo_sms_pres o lid mid 3 1 st

theorem countChannel_createSms (st : SysState) (lid : Nat) (body : String) :
    countChannel (Messages.create st lid "pitch" .sms none body).2 .sms =
      countChannel st .sms + 1 := by
  unfold countChannel Messages.create
  simp [List.filter_append]

theorem countSmsAttempts_log_sms_sent (st : SysState) (lid : Option Nat) :
    countSmsAttempts (Activity.log st "sms_sent" lid) = countSmsAttempts st + 1 := by
  simp [countSmsAttempts, Activity.log, List.filter_append]

theorem countSmsAttempts_log_sms_failed (st : SysState) (lid : Option Nat) :
    countSmsAttempts (Activity.log st "sms_failed" lid) = countSmsAttempts st + 1 := by
  simp [countSmsAttempts, Activity.log, List.filter_append]

theorem sendWhatsApp_configured (o : Oracle) (s : Settings) (toNum : String) (lid : Nat)
    (mid : Option Nat) (st : SysState)
    (hsid : s.twilio_sid ≠ "") (htok : s.twilio_token ≠ "")
    (hwafrom : s.twilio_whatsapp_from ≠ "") (hto : toNum ≠ "") :
    sendWhatsApp o s toNum lid mid st =
      if o.waOk then
        (Activity.log (updMsgStatusOpt st mid .sent none) "whatsapp_sent" (some lid),
         { success := true, error := none, channel := some .whatsapp, reason := none })
      else
        (updMsgStatusOpt st mid .failed (some o.waErr),
         { success := false, error := some o.waErr, channel := some .whatsapp, reason := none }) := by
  unfold sendWhatsApp
  rw [if_neg (by simp [hsid, htok]), if_neg hwafrom, if_neg hto]

theorem sendSMS_configured (o : Oracle) (s : Settings) (toNum body : String) (lid : Nat)
    (st : SysState)
    (hsid : s.twilio_sid ≠ "") (htok : s.twilio_token ≠ "")
    (hfrom : s.twilio_from_number ≠ "") (hto : toNum ≠ "") :
    sendSMS o s toNum body lid st =
      if o.smsOk then
        (Activity.log
          (Messages.updateStatus (Messages.create st lid "pitch" .sms none body).2
            (Messages.create st lid "pitch" .sms none body).1.id .sent none)
          "sms_sent" (some lid),
         { success := true, error := none, channel := some .sms, reason := none })
      else
        (Activity.log st "sms_failed" (some lid),
         { success := false, error := some o.smsErr, channel := some .sms, reason := none }) := by
  unfold sendSMS
  rw [if_neg (by simp [hsid, htok]), if_neg hfrom, if_neg hto]

theorem messagingStep_spec (o : Oracle) (s : Settings) (lead : Lead) (wm : Message)
    (eRes : Option SendRes) (st st2 : SysState) (results : OutreachResults)
    (htw : s.twilio_enabled = true) (hphone : optTruthy lead.phone = true)
    (hsid : s.twilio_sid ≠ "") (htok : s.twilio_token ≠ "")
    (hfrom : s.twilio_from_number ≠ "") (hwafrom : s.twilio_whatsapp_from ≠ "")
    (hok : outreachMessagingStep o s lead (some wm) eRes st = (st2, .ok results)) :
    results.email = eRes ∧
    (o.waOk = true →
      results.messaging =
        some { success := true, error := none, channel := some .whatsapp, reason := none } ∧
      countChannel st2 .sms = countChannel st .sms ∧
      countSmsAttempts st2 = countSmsAttempts st) ∧
    (o.waOk = false →
      results.messaging =
        some { success := o.smsOk, error := if o.smsOk then none else some o.smsErr,
               channel := some .sms, reason := none } ∧
      countChannel st2 .sms = countChannel st .sms + (if o.smsOk then 1 else 0) ∧
      countSmsAttempts st2 = countSmsAttempts st + 1) := by
  rcases hph : lead.phone with _ | p
  · rw [hph] at hphone
    simp [optTruthy] at hphone
  · have hp : p ≠ "" := by
      rw [hph] at hphone
      simpa [optTruthy] using hphone
    unfold outreachMessagingStep at hok
    rw [hph] at hok
    try dsimp only at hok
    rw [if_pos (by exact ⟨htw, by simp [optTruthy, hp]⟩)] at hok
    simp only [Option.getD_some] at hok
    rw [sendWhatsApp_configured o s p lead.id (some wm.id) st hsid htok hwafrom hp] at hok
    by_cases hwa : o.waOk = true
    · rw [if_pos hwa] at hok
      try dsimp only at hok
      rw [if_pos rfl] at hok
      simp only [Prod.mk.injEq, Except.ok.injEq] at hok
      obtain ⟨hst2, hres⟩ := hok
      subst hst2
      subst hres
      refine ⟨rfl, ?_, ?_⟩
      · intro _
        refine ⟨rfl, ?_, ?_⟩
        · exact countChannel_updOpt st (some wm.id) .sent none .sms
        · exact (countSmsAttempts_log_of_ne _ _ _ (by decide) (by decide)).trans
            (countSmsAttempts_updOpt st (some wm.id) .sent none)
      · intro hcontra
        rw [hwa] at hcontra
        cases hcontra
    · have hwaF : o.waOk = false := by
        cases h : o.waOk
        · rfl
        · exact absurd h hwa
      rw [hwaF] at hok
      rw [if_neg (by simp)] at hok
      try dsimp only at hok
      rw [if_neg (by simp)] at hok
      rw [sendSMS_configured o s p wm.body lead.id _ hsid htok hfrom hp] at hok
      by_cases hsms : o.smsOk = true
      · rw [if_pos hsms] at hok
        try dsimp only at hok
        simp only [Prod.mk.injEq, Except.ok.injEq] at hok
        obtain ⟨hst2, hres⟩ := hok
        subst hst2
        subst hres
        refine ⟨rfl, ?_, ?_⟩
        · intro hcontra
          rw [hwaF] at hcontra
          cases hcontra
        · intro _
          refine ⟨by simp [hsms], ?_, ?_⟩
          · rw [hsms]
            simp only [if_true]
            have e1 : countChannel (updMsgStatusOpt st (some wm.id) .failed (some o.waErr)) .sms =
                countChannel st .sms :=
              countChannel_updOpt st (some wm.id) .failed (some o.waErr) .sms
            have e2 := countChannel_createSms
              (updMsgStatusOpt st (some wm.id) .failed (some o.waErr)) lead.id wm.body
            have e3 := countChannel_msgUpdateStatus
              (Messages.create (updMsgStatusOpt st (some wm.id) .failed (some o.waErr))
                lead.id "pitch" .sms none wm.body).2
              (Messages.create (updMsgStatusOpt st (some wm.id) .failed (some o.waErr))
                lead.id "pitch" .sms none wm.body).1.id .sent none .sms
            exact e3.trans (e2.trans (by rw [e1]))
          · exact (countSmsAttempts_log_sms_sent _ _).trans
              (congrArg (fun n => n + 1)
                (countSmsAttempts_updOpt st (some wm.id) .failed (some o.waErr)))
      · have hsmsF : o.smsOk = false := by
          cases h : o.smsOk
          · rfl
          · exact absurd h hsms
        rw [hsmsF] at hok
        rw [if_neg (by simp)] at hok
        simp only [Prod.mk.injEq, Except.ok.injEq] at hok
        obtain ⟨hst2, hres⟩ := hok
        subst hst2
        subst hres
        refine ⟨rfl, ?_, ?_⟩
        · intro hcontra
          rw [hwaF] at hcontra
          cases hcontra
        · intro _
          refine ⟨by simp [hsmsF], ?_, ?_⟩
          · rw [hsmsF]
            simp only [Bool.false_eq_true, if_false, Nat.add_zero]
            exact countChannel_updOpt st (some wm.id) .failed (some o.waErr) .sms
          · exact (countSmsAttempts_log_sms_failed _ _).trans
              (by rw [countSmsAttempts_updOpt st (some wm.id) .failed (some o.waErr)])

/-- C4 counterexample: with WhatsApp and SMS both failing, the pitch
dispatch runs the SMS fallback (the reported messaging result is the SMS
failure) and counts one SMS attempt, yet NO `sms`-channel Message row
exists afterwards — refuting the claim that the fallback attempt is always
recorded as a distinct Message row. -/
theorem c4_counterexample :
    (sendOutreach waSmsFailOracle cfgSettings c4Lead none (some c4WaMsg) c4State).2 =
      .ok { email := none,
            messaging := some { success := false, error := some "sms down",
                                channel := some .sms, reason := none } } ∧
    countSmsAttempts
      (sendOutreach waSmsFailOracle cfgSettings c4Lead none (some c4WaMsg) c4State).1 = 1 ∧
    countChannel
      (sendOutreach waSmsFailOracle cfgSettings c4Lead none (some c4WaMsg) c4State).1 .sms = 0 :=
  ⟨rfl, rfl, rfl⟩

/-- C4 amended. In a pitch dispatch for a lead with a phone number, with the
messaging channel enabled and configured: an SMS attempt is made if and
only if the WhatsApp attempt reports failure; when the fallback runs,
exactly one SMS attempt is made and its outcome (not WhatsApp's) is
reported as the messaging result; the SMS attempt is recorded as a distinct
`sms`-channel Message row exactly when it succeeds (a failed SMS attempt
creates no row); when WhatsApp succeeds no SMS attempt occurs and the
WhatsApp result is reported. -/
theorem c4_fallback_amended (o : Oracle) (s : Settings) (lead : Lead) (em : Option Message)
    (wm : Message) (st st2 : SysState) (results : OutreachResults)
    (htw : s.twilio_enabled = true) (hphone : optTruthy lead.phone = true)
    (hsid : s.twilio_sid ≠ "") (htok : s.twilio_token ≠ "")
    (hfrom : s.twilio_from_number ≠ "") (hwafrom : s.twilio_whatsapp_from ≠ "")
    (hok : sendOutreach o s lead em (some wm) st = (st2, .ok results)) :
    (o.waOk = true →
      results.messaging =
        some { success := true, error := none, channel := some .whatsapp, reason := none } ∧
      countChannel st2 .sms = countChannel st .sms ∧
      countSmsAttempts st2 = countSmsAttempts st) ∧
    (o.waOk = false →
      results.messaging =
        some { success := o.smsOk, error := if o.smsOk then none else some o.smsErr,
               channel := some .sms, reason := none } ∧
      countChannel st2 .sms = countChannel st .sms + (if o.smsOk then 1 else 0) ∧
      countSmsAttempts st2 = countSmsAttempts st + 1) := by
  unfold sendOutreach at hok
  cases em with
  | none =>
    dsimp only at hok
    have spec := messagingStep_spec o s lead wm none st st2 results
      htw hphone hsid htok hfrom hwafrom hok
    exact ⟨spec.2.1, spec.2.2⟩
  | some emsg =>
    dsimp only at hok
    by_cases he : optTruthy lead.email = true
    · rw [if_pos he] at hok
      rcases hse : sendEmail o s (lead.email.getD "") lead.id (some emsg.id) st with ⟨st1, r⟩
      rw [hse] at hok
      have epres := sendEmail_sms_pres o s (lead.email.getD "") lead.id (some emsg.id) st
      rw [hse] at epres
      cases r with
      | error e => simp at hok
      | ok rr =>
        dsimp only at hok
        have spec := messagingStep_spec o s lead wm (some rr) st1 st2 results
          htw hphone hsid htok hfrom hwafrom hok
        constructor
        · intro hwa
          obtain ⟨hm, hc, ha⟩ := spec.2.1 hwa
          exact ⟨hm, hc.trans (epres.1 .sms), ha.trans epres.2⟩
        · intro hwa
          obtain ⟨hm, hc, ha⟩ := spec.2.2 hwa
          refine ⟨hm, hc.trans (by rw [epres.1 .sms]), ha.trans (by rw [epres.2])⟩
    · rw [if_neg he] at hok
      dsimp only at hok
      have spec := messagingStep_spec o s lead wm none st st2 results
        htw hphone hsid htok hfrom hwafrom hok
      exact ⟨spec.2.1, spec.2.2⟩

/-- Witness for C4 (amended) at a concrete run where WhatsApp fails and the
SMS fallback succeeds: the messaging result is the SMS success and one new
`sms` Message row plus one SMS attempt are recorded. -/
theorem c4_witness :
    (sendOutreach waFailOracle cfgSettings c4Lead none (some c4WaMsg) c4State).2 =
      .ok { email := none,
            messaging := some { success := true, error := none,
                                channel := some .sms, reason := none } } ∧
    countChannel
      (sendOutreach waFailOracle cfgSettings c4Lead none (some c4WaMsg) c4State).1 .sms =
      countChannel c4State .sms + 1 ∧
    countSmsAttempts
      (sendOutreach waFailOracle cfgSettings c4Lead none (some c4WaMsg) c4State).1 =
      countSmsAttempts c4State + 1 := by
  have happ := (c4_fallback_amended waFailOracle cfgSettings c4Lead none c4WaMsg c4State
      (sendOutreach waFailOracle cfgSettings c4Lead none (some c4WaMsg) c4State).1
      { email := none,
        messaging := some { success := true, error := none,
                            channel := some .sms, reason := none } }
      rfl rfl (by decide) (by decide) (by decide) (by decide) rfl).2 rfl
  exact ⟨rfl, by simpa using happ.2.1, by simpa using happ.2.2⟩

/-- C5. Pitch atomicity on email-generation failure: if the email pitch
content generation throws (missing API key, transport error, or empty
completion), the pitch handler surfaces the error with the state EXACTLY
unchanged — no Message rows, no dispatch, status still `new`, no follow-up
jobs. -/
theorem c5_pitch_atomic_on_email_failure (o : Oracle) (s : Settings) (st : SysState)
    (leadId : Nat) (lead : Lead)
    (hfind : Leads.findById st leadId = some lead) (hnew : lead.status = .new)
    (hfail : ∃ e, callOpenRouter o s s.email_system_prompt (emailUserPromptFor s lead) =
      .error e) :
    ∃ e, pitchProcess o s leadId st = (st, .error e) := by
  obtain ⟨e, he⟩ := hfail
  refine ⟨e, ?_⟩
  unfold pitchProcess
  rw [hfind]
  dsimp only
  rw [if_neg (by simp [hnew])]
  unfold generatePitch
  rw [he]

/-- Witness for C5: with the OpenRouter key missing, the pitch of a fresh
lead aborts with an error and the state is untouched. -/
theorem c5_witness :
    ∃ e, pitchProcess okOracle noKeySettings 1 c1State = (c1State, .error e) :=
  c5_pitch_atomic_on_email_failure okOracle noKeySettings c1State 1
    (sampleLead 1 (some "a@x.com") (some "+1 555 0100") .new) rfl rfl
    ⟨"OpenRouter API key not configured", rfl⟩

theorem statusOf_updateStatus (st : SysState) (tid : Nat) (s : LeadStatus) :
    statusOf (Leads.updateStatus st tid s) tid = (statusOf st tid).map (fun _ => s) := by
  unfold statusOf
  rw [findById_updateStatus]
  rcases hf : Leads.findById st tid with _ | l0
  · rfl
  · have hl0 : l0.id = tid := findById_id st tid l0 hf
    simp [hl0]

theorem countRepliesFor_create (st : SysState) (lid : Nat) (ch : Channel)
    (fromAddr body : String) :
    countRepliesFor (Replies.create st lid ch fromAddr body) lid =
      countRepliesFor st lid + 1 := by
  unfold countRepliesFor Replies.create
  simp [List.filter_append]

/-- C6 counterexample: a CONVERTED lead that receives an email reply is
demoted to `replied` by the SendGrid webhook — the code sets the status
unconditionally, with no "not already replied/converted" guard, so the
claim's guard clause is false on the code. -/
theorem c6_counterexample :
    statusOf c6State 1 = some .converted ∧
    statusOf (sendgridWebhook "a@x.com" "got it" c6State) 1 = some .replied :=
  ⟨rfl, rfl⟩

/-- C6 amended. When an inbound email reply matches a lead, the router
persists a new Reply row, sets the lead's status to `replied`
UNCONDITIONALLY (regardless of prior status, including `converted` and
`archived`, which are demoted), cancels the lead's pending stage jobs and
pending Messages, and enqueues a notification; every further reply adds a
new Reply row, and for a lead already `replied` the status value stays
`replied`. -/
theorem c6_reply_routing_amended (st : SysState) (fromAddr text : String) (lead : Lead)
    (hmatch : st.leads.find? (fun l => l.email = some fromAddr) = some lead) :
    countRepliesFor (sendgridWebhook fromAddr text st) lead.id =
      countRepliesFor st lead.id + 1 ∧
    statusOf (sendgridWebhook fromAddr text st) lead.id = some .replied ∧
    (sendgridWebhook fromAddr text st).notified = st.notified + 1 ∧
    hasTask (sendgridWebhook fromAddr text st) (followupKey lead.id 1) = false ∧
    hasTask (sendgridWebhook fromAddr text st) (followupKey lead.id 2) = false ∧
    hasTask (sendgridWebhook fromAddr text st) (followupKey lead.id 3) = false ∧
    countPendingFor (sendgridWebhook fromAddr text st) lead.id = 0 := by
  have hmem : lead ∈ st.leads := List.mem_of_find?_eq_some hmatch
  unfold sendgridWebhook
  rw [hmatch]
  dsimp only
  refine ⟨countRepliesFor_create st lead.id .email fromAddr text, ?_,
    rfl,
    hasTask_cancelFollowups lead.id _ 1 (by simp),
    hasTask_cancelFollowups lead.id _ 2 (by simp),
    hasTask_cancelFollowups lead.id _ 3 (by simp),
    countPendingFor_cancelFollowups lead.id _⟩
  have h1 : statusOf
      (Activity.log (cancelFollowupsForLead lead.id
        (Leads.updateStatus (Replies.create st lead.id .email fromAddr text) lead.id .replied))
        "reply_received" (some lead.id)) lead.id =
      statusOf
        (Leads.updateStatus (Replies.create st lead.id .email fromAddr text) lead.id .replied)
        lead.id := rfl
  show statusOf
      (Activity.log (cancelFollowupsForLead lead.id
        (Leads.updateStatus (Replies.create st lead.id .email fromAddr text) lead.id .replied))
        "reply_received" (some lead.id)) lead.id = some .replied
  rw [h1, statusOf_updateStatus]
  rcases hf : Leads.findById (Replies.create st lead.id .email fromAddr text) lead.id
    with _ | l0
  · exfalso
    have : Leads.findById st lead.id = none := hf
    unfold Leads.findById at this
    have := List.find?_eq_none.mp this lead hmem
    simp at this
  · unfold statusOf
    rw [hf]
    rfl

/-- Witness for C6 at the concrete converted lead: the reply is persisted,
the status becomes `replied`, a notification is enqueued and pending work
is cancelled. -/
theorem c6_witness :
    countRepliesFor (sendgridWebhook "a@x.com" "hello" c6State) 1 =
      countRepliesFor c6State 1 + 1 ∧
    statusOf (sendgridWebhook "a@x.com" "hello" c6State) 1 = some .replied ∧
    (sendgridWebhook "a@x.com" "hello" c6State).notified = c6State.notified + 1 ∧
    hasTask (sendgridWebhook "a@x.com" "hello" c6State) (followupKey 1 1) = false ∧
    hasTask (sendgridWebhook "a@x.com" "hello" c6State) (followupKey 1 2) = false ∧
    hasTask (sendgridWebhook "a@x.com" "hello" c6State) (followupKey 1 3) = false ∧
    countPendingFor (sendgridWebhook "a@x.com" "hello" c6State) 1 = 0 :=
  c6_reply_routing_amended c6State "a@x.com" "hello"
    (sampleLead 1 (some "a@x.com") none .converted) rfl

/-- C7. Phone-matching failing input: the stored phone `"+1 555 0100"`
normalizes (SQL side) to `"+15550100"` — the `+` is kept — while the
inbound `From` `"+15550100"` normalizes (JS side) to `"15550100"` — the
`+` is stripped; the two sides can never agree on a `+`-prefixed stored
number, so the webhook matches no lead and drops the reply, leaving the
state untouched. Note the outbound sender normalizes the very same stored
phone to `"+15550100"`, i.e. the reply comes from exactly the number the
system texted, and is still dropped. -/
theorem c7_phone_match_bug :
    sqlStripSpaceDash "+1 555 0100" = "+15550100" ∧
    stripPlusWsDash (stripJsWs "+15550100") = "15550100" ∧
    normalizePhone "+1 555 0100" = "+15550100" ∧
    twilioWebhook "+15550100" "yes please" c7State = c7State :=
  ⟨rfl, rfl, rfl, rfl⟩

theorem hasTask_addDelayedTask_self (t : SchedTask) (ts : List SchedTask) :
    (addDelayedTask t ts).any (fun x => x.key = t.key) = true := by
  unfold addDelayedTask
  by_cases h : ts.any (fun x => x.key = t.key) = true
  · rw [if_pos h]
    exact h
  · rw [if_neg h]
    simp [List.any_append]

theorem hasTask_addDelayedTask_mono (t : SchedTask) (ts : List SchedTask) (k : String)
    (h : ts.any (fun x => x.key = k) = true) :
    (addDelayedTask t ts).any (fun x => x.key = k) = true := by
  unfold addDelayedTask
  by_cases hh : ts.any (fun x => x.key = t.key) = true
  · rw [if_pos hh]
    exact h
  · rw [if_neg hh]
    simp [List.any_append, h]

theorem scheduleFollowups_hasTask (s : Settings) (leadId : Nat) (st : SysState) :
    hasTask (scheduleFollowups s leadId st) (followupKey leadId 1) = true ∧
    hasTask (scheduleFollowups s leadId st) (followupKey leadId 2) = true ∧
    hasTask (scheduleFollowups s leadId st) (followupKey leadId 3) = true := by
  unfold hasTask scheduleFollowups
  refine ⟨?_, ?_, ?_⟩
  · exact hasTask_addDelayedTask_mono _ _ _
      (hasTask_addDelayedTask_mono _ _ _ (hasTask_addDelayedTask_self _ _))
  · exact hasTask_addDelayedTask_mono _ _ _ (hasTask_addDelayedTask_self _ _)
  · exact hasTask_addDelayedTask_self _ _

theorem sendEmail_allFail (o : Oracle) (s : Settings) (st : SysState) (toAddr : String)
    (lid mid : Nat)
    (hu : s.hostinger_smtp_user ≠ "") (hpw : s.hostinger_smtp_pass ≠ "")
    (hfr : s.from_email ≠ "") (hto : toAddr ≠ "")
    (h1 : o.emailOk 1 = false) (h2 : o.emailOk 2 = false) (h3 : o.emailOk 3 = false) :
    sendEmail o s toAddr lid (some mid) st =
      ({ st with
          messages := st.messages.map (fun m =>
            if m.id = mid then
              { m with status := .failed, error_text := some (o.emailErr 3),
                       retry_count := m.retry_count + 3 }
            else m),
          activity := st.activity ++ [{ action := "email_failed", lead := some lid }],
          smtpWaits := st.smtpWaits ++ [2000, 4000] },
       .ok { success := false, error := some (o.emailErr 3), channel := none,
             reason := none }) := by
  unfold sendEmail
  rw [if_neg hu, if_neg hpw, if_neg hfr, if_neg hto]
  simp only [sendEmailGo, h1, h2, h3, updMsgStatusOpt, incRetryOpt, Bool.false_eq_true,
    if_false, gt_iff_lt, Nat.zero_lt_succ, if_true, Nat.lt_irrefl, Messages.incrementRetry,
    Messages.updateStatus, Activity.log, List.map_map, List.append_assoc]
  norm_num [Prod.mk.injEq, SysState.mk.injEq]
  intro m _
  by_cases h : m.id = mid <;> simp [h]

theorem messagingStep_email_field (o : Oracle) (s : Settings) (lead : Lead)
    (wm : Option Message) (eRes : Option SendRes) (st st2 : SysState)
    (results : OutreachResults)
    (hok : outreachMessagingStep o s lead wm eRes st = (st2, .ok results)) :
    results.email = eRes := by
  unfold outreachMessagingStep at hok
  cases wm with
  | none =>
    simp only [Prod.mk.injEq, Except.ok.injEq] at hok
    rw [← hok.2]
  | some w =>
    dsimp only at hok
    by_cases hc : s.twilio_enabled = true ∧ optTruthy lead.phone = true
    · rw [if_pos hc] at hok
      rcases hwa : sendWhatsApp o s (lead.phone.getD "") lead.id (some w.id) st with ⟨stw, waR⟩
      rw [hwa] at hok
      dsimp only at hok
      by_cases hs : waR.success = true
      · rw [if_pos hs] at hok
        simp only [Prod.mk.injEq, Except.ok.injEq] at hok
        rw [← hok.2]
      · rw [if_neg hs] at hok
        rcases hsms : sendSMS o s (lead.phone.getD "") w.body lead.id stw with ⟨sts, smsR⟩
        rw [hsms] at hok
        dsimp only at hok
        simp only [Prod.mk.injEq, Except.ok.injEq] at hok
        rw [← hok.2]
    · rw [if_neg hc] at hok
      simp only [Prod.mk.injEq, Except.ok.injEq] at hok
      rw [← hok.2]

/-- C8. Email retry and non-halting failure: with SMTP configured and every
attempt failing transiently, (1) `sendEmail` makes exactly 3 attempts with
increasing backoff (2000 ms then 4000 ms), increments the Message row's
retry counter by 3, marks it `failed` with the last error text, and RETURNS
a failure result instead of raising; and (2) a pitch whose email send fails
this way still completes and still schedules the three follow-up jobs when
automated follow-up is enabled. -/
theorem c8_email_retry_nonhalting (o : Oracle) (s : Settings)
    (hu : s.hostinger_smtp_user ≠ "") (hpw : s.hostinger_smtp_pass ≠ "")
    (hfr : s.from_email ≠ "")
    (hfail : ∀ i, 1 ≤ i → i ≤ 3 → o.emailOk i = false) :
    (∀ (st : SysState) (toAddr : String) (lid mid : Nat), toAddr ≠ "" →
      sendEmail o s toAddr lid (some mid) st =
        ({ st with
            messages := st.messages.map (fun m =>
              if m.id = mid then
                { m with status := .failed, error_text := some (o.emailErr 3),
                         retry_count := m.retry_count + 3 }
              else m),
            activity := st.activity ++ [{ action := "email_failed", lead := some lid }],
            smtpWaits := st.smtpWaits ++ [2000, 4000] },
         .ok { success := false, error := some (o.emailErr 3), channel := none,
               reason := none })) ∧
    (∀ (st st2 : SysState) (leadId : Nat) (lead : Lead) (res : OutreachResults),
      Leads.findById st leadId = some lead → lead.status = .new →
      optTruthy lead.email = true → s.auto_followup_enabled = true →
      pitchProcess o s leadId st = (st2, .ok (.done res)) →
      res.email = some { success := false, error := some (o.emailErr 3), channel := none,
                         reason := none } ∧
      hasTask st2 (followupKey leadId 1) = true ∧
      hasTask st2 (followupKey leadId 2) = true ∧
      hasTask st2 (followupKey leadId 3) = true) := by
  have h1 : o.emailOk 1 = false := hfail 1 (by norm_num) (by norm_num)
  have h2 : o.emailOk 2 = false := hfail 2 (by norm_num) (by norm_num)
  have h3 : o.emailOk 3 = false := hfail 3 (by norm_num) (by norm_num)
  constructor
  · intro st toAddr lid mid hto
    exact sendEmail_allFail o s st toAddr lid mid hu hpw hfr hto h1 h2 h3
  · intro st st2 leadId lead res hfind hnew hemail hauto hrun
    unfold pitchProcess at hrun
    rw [hfind] at hrun
    simp only [hnew, ne_eq, not_true_eq_false, if_false] at hrun
    rcases hg : generatePitch o s lead st with ⟨stg, rg⟩
    rw [hg] at hrun
    cases rg with
    | error e => simp at hrun
    | ok p =>
      obtain ⟨em, wm⟩ := p
      dsimp only at hrun
      unfold sendOutreach at hrun
      dsimp only at hrun
      rw [if_pos hemail] at hrun
      have hto : lead.email.getD "" ≠ "" := by
        rcases hem : lead.email with _ | v
        · rw [hem] at hemail; simp [optTruthy] at hemail
        · rw [hem] at hemail
          simpa [optTruthy] using hemail
      rw [sendEmail_allFail o s stg (lead.email.getD "") lead.id em.id hu hpw hfr hto
        h1 h2 h3] at hrun
      dsimp only at hrun
      rcases hms : outreachMessagingStep o s lead (some wm)
          (some { success := false, error := some (o.emailErr 3), channel := none,
                  reason := none })
          ({ stg with
              messages := stg.messages.map (fun m =>
                if m.id = em.id then
                  { m with status := .failed, error_text := some (o.emailErr 3),
                           retry_count := m.retry_count + 3 }
                else m),
              activity := stg.activity ++ [{ action := "email_failed", lead := some lead.id }],
              smtpWaits := stg.smtpWaits ++ [2000, 4000] }) with ⟨stm, rm⟩
      rw [hms] at hrun
      cases rm with
      | error e => simp at hrun
      | ok results =>
        simp only [hauto, if_true, Prod.mk.injEq, Except.ok.injEq,
          PitchOutcome.done.injEq] at hrun
        obtain ⟨hst2, hres⟩ := hrun
        have hfield := messagingStep_email_field o s lead (some wm) _ _ stm results hms
        refine ⟨by rw [← hres]; exact hfield, ?_, ?_, ?_⟩
        · rw [← hst2]
          exact (scheduleFollowups_hasTask s leadId stm).1
        · rw [← hst2]
          exact (scheduleFollowups_hasTask s leadId stm).2.1
        · rw [← hst2]
          exact (scheduleFollowups_hasTask s leadId stm).2.2

/-- Witness for C8: the concrete all-fail SMTP run on message row 7, and a
pitch run with failing email that still schedules the three follow-ups. -/
theorem c8_witness :
    sendEmail mailFailOracle cfgSettings "a@x.com" 1 (some 7) c8State =
      ({ c8State with
          messages := c8State.messages.map (fun m =>
            if m.id = 7 then
              { m with status := .failed, error_text := some "smtp down",
                       retry_count := m.retry_count + 3 }
            else m),
          activity := c8State.activity ++ [{ action := "email_failed", lead := some 1 }],
          smtpWaits := c8State.smtpWaits ++ [2000, 4000] },
       .ok { success := false, error := some "smtp down", channel := none,
             reason := none }) ∧
    hasTask (pitchProcess mailFailOracle cfgSettings 1 c1State).1 (followupKey 1 1) = true ∧
    hasTask (pitchProcess mailFailOracle cfgSettings 1 c1State).1 (followupKey 1 2) = true ∧
    hasTask (pitchProcess mailFailOracle cfgSettings 1 c1State).1 (followupKey 1 3) = true := by
  have h := c8_email_retry_nonhalting mailFailOracle cfgSettings (by decide) (by decide)
    (by decide) (fun i _ _ => rfl)
  refine ⟨h.1 c8State "a@x.com" 1 7 (by decide), ?_⟩
  have hrun := h.2 c1State (pitchProcess mailFailOracle cfgSettings 1 c1State).1 1
    (sampleLead 1 (some "a@x.com") (some "+1 555 0100") .new)
    { email := some { success := false, error := some "smtp down", channel := none,
                      reason := none },
      messaging := some { success := true, error := none, channel := some .whatsapp,
                          reason := none } }
    rfl rfl rfl rfl rfl
  exact ⟨hrun.2.1, hrun.2.2.1, hrun.2.2.2⟩

/-- C9. Follow-up prompt fallback: when the dynamic stage key is missing
(or empty, which JavaScript `||` treats the same), `generateFollowup`
silently uses the email pitch prompt for that value; when a non-empty
stage-specific value is configured it is the one used; and
`generateFollowup` is exactly the generation body applied to these two
selected prompts. -/
theorem c9_followup_prompt_fallback (s : Settings) (n : Nat) :
    (s.kv (followupSystemKey n) = none ∨ s.kv (followupSystemKey n) = some "" →
      followupSystemPromptSel s n = s.email_system_prompt) ∧
    (∀ v, s.kv (followupSystemKey n) = some v → v ≠ "" →
      followupSystemPromptSel s n = v) ∧
    (s.kv (followupUserKey n) = none ∨ s.kv (followupUserKey n) = some "" →
      followupUserInstrSel s n = s.email_user_instructions) ∧
    (∀ v, s.kv (followupUserKey n) = some v → v ≠ "" →
      followupUserInstrSel s n = v) ∧
    (∀ (o : Oracle) (lead : Lead) (st : SysState),
      generateFollowup o s lead n st =
        generateFollowupUsing o s (followupSystemPromptSel s n)
          (followupUserInstrSel s n) lead n st) := by
  refine ⟨?_, ?_, ?_, ?_, fun o lead st => rfl⟩
  · intro h
    unfold followupSystemPromptSel jsOrD
    rcases h with h | h <;> simp [h]
  · intro v hv hne
    unfold followupSystemPromptSel jsOrD
    rw [hv]
    simp [hne]
  · intro h
    unfold followupUserInstrSel jsOrD
    rcases h with h | h <;> simp [h]
  · intro v hv hne
    unfold followupUserInstrSel jsOrD
    rw [hv]
    simp [hne]

/-- Witness for C9: with stage-2 overrides configured they are selected,
and with no stage-1 configuration the email prompts are selected. -/
theorem c9_witness :
    followupSystemPromptSel kvSettings 2 = "S2-OVERRIDE" ∧
    followupUserInstrSel kvSettings 2 = "U2-OVERRIDE" ∧
    followupSystemPromptSel cfgSettings 1 = cfgSettings.email_system_prompt ∧
    followupUserInstrSel cfgSettings 1 = cfgSettings.email_user_instructions :=
  ⟨(c9_followup_prompt_fallback kvSettings 2).2.1 "S2-OVERRIDE" rfl (by decide),
   (c9_followup_prompt_fallback kvSettings 2).2.2.2.1 "U2-OVERRIDE" rfl (by decide),
   (c9_followup_prompt_fallback cfgSettings 1).1 (Or.inl rfl),
   (c9_followup_prompt_fallback cfgSettings 1).2.2.1 (Or.inl rfl)⟩

/-- C10. Frame of `Messages.cancelPendingForLead`: only the Message rows of
the given lead that are in status `pending` change, and only their status
field (set to `cancelled`); every other row, and every other field of the
changed rows (body, subject, retry counter, error text, ids, channel,
type), as well as every other table, is left entirely unchanged. -/
theorem c10_cancel_pending_frame (st : SysState) (leadId : Nat) :
    (Messages.cancelPendingForLead st leadId).leads = st.leads ∧
    (Messages.cancelPendingForLead st leadId).replies = st.replies ∧
    (Messages.cancelPendingForLead st leadId).tasks = st.tasks ∧
    (Messages.cancelPendingForLead st leadId).activity = st.activity ∧
    (Messages.cancelPendingForLead st leadId).nextMsgId = st.nextMsgId ∧
    (Messages.cancelPendingForLead st leadId).messages.length = st.messages.length ∧
    (∀ (i : Nat) (m m' : Message),
      st.messages[i]? = some m →
      (Messages.cancelPendingForLead st leadId).messages[i]? = some m' →
      (m.lead_id = leadId → m.status = .pending → m' = { m with status := .cancelled }) ∧
      (m.lead_id ≠ leadId → m' = m) ∧
      (m.status ≠ .pending → m' = m) ∧
      m'.id = m.id ∧ m'.lead_id = m.lead_id ∧ m'.message_type = m.message_type ∧
      m'.channel = m.channel ∧ m'.subject = m.subject ∧ m'.body = m.body ∧
      m'.retry_count = m.retry_count) := by
  refine ⟨rfl, rfl, rfl, rfl, rfl, ?_, ?_⟩
  · unfold Messages.cancelPendingForLead
    simp
  · intro i m m' h1 h2
    unfold Messages.cancelPendingForLead at h2
    simp only at h2
    rw [List.getElem?_map, h1, Option.map_some'] at h2
    have hm' : m' = (if m.lead_id = leadId ∧ m.status = MsgStatus.pending
        then { m with status := MsgStatus.cancelled } else m) :=
      (Option.some.injEq _ _ ▸ h2).symm
    by_cases hc : m.lead_id = leadId ∧ m.status = MsgStatus.pending
    · rw [hm', if_pos hc]
      exact ⟨fun _ _ => rfl, fun hne => absurd hc.1 hne, fun hns => absurd hc.2 hns,
        rfl, rfl, rfl, rfl, rfl, rfl, rfl⟩
    · rw [hm', if_neg hc]
      exact ⟨fun ha hb => absurd ⟨ha, hb⟩ hc, fun _ => rfl, fun _ => rfl,
        rfl, rfl, rfl, rfl, rfl, rfl, rfl⟩

/-- Witness for C10 on a mixed four-row message table: length and other
tables preserved, and the pointwise rule applied at the pending row of the
target lead. -/
theorem c10_witness :
    (Messages.cancelPendingForLead c10State 1).messages.length =
      c10State.messages.length ∧
    (Messages.cancelPendingForLead c10State 1).leads = c10State.leads ∧
    ({ samplePendingMsg 30 1 .email with status := MsgStatus.cancelled } : Message).body =
      (samplePendingMsg 30 1 .email).body := by
  have h := c10_cancel_pending_frame c10State 1
  have h0 := h.2.2.2.2.2.2 0 (samplePendingMsg 30 1 .email)
    { samplePendingMsg 30 1 .email with status := MsgStatus.cancelled } rfl rfl
  exact ⟨h.2.2.2.2.2.1, h.1, h0.2.2.2.2.2.2.2.2.1⟩
